import Mathlib

/-!
# CsmaAck: CSMA medium access with acknowledgements, backoff and NAV

A shallow embedding of `development/MiXiM/csmaack.cc`.  Every member function of
`CsmaAck` becomes a function on an explicit machine state.  A handler returns
`none` when the C++ code would abort (a failed `assert`, or a dereference of a
null `tx_msg`), and `some s` with the state it leaves otherwise.

What the class reads from its surroundings (the clock, `isReceiving()`, the
channel sample, the random source) is gathered in `Env`; what it does to its
surroundings (radio commands, timer requests, packets handed upward) is
appended to the `trace` of the state.  Debug output (`printf`) and the
statistics registry (`reg_*`) have no influence on the protocol and are left
out.
-/

namespace CsmaAck

/-! ## Data model -/

/-- Values of `proto_state` and `proto_next_state`. -/
inductive ProtoState where
  | PROTO_STATE_NONE
  | PROTO_STATE_IDLE
  | PROTO_STATE_CONTEND
  | PROTO_STATE_SEND_DATA
  | PROTO_STATE_SEND_ACK
  | PROTO_STATE_WFACK
  deriving DecidableEq, Repr

/-- Values of `nav_state`. -/
inductive NavState where
  | NAV_STATE_CLEAR
  | NAV_STATE_BUSY
  deriving DecidableEq, Repr

/-- Completion code stored in a packet by `setKind` before it is handed back. -/
inductive MsgKind where
  | UNSET
  | TX_DONE
  | TX_FAILED
  deriving DecidableEq, Repr

/-- Timer identities accepted by `timeout`; `UNKNOWN` stands for any other value. -/
inductive TimerId where
  | TIMER_PROTOCOL
  | TIMER_NAV
  | UNKNOWN
  deriving DecidableEq, Repr

/-- Mode of the radio as last commanded. -/
inductive RadioMode where
  | LISTEN
  | SLEEP
  | TRANSMIT
  deriving DecidableEq, Repr

/-- Modelled from the spec: the header kind discriminator of the wire format
(`Data`=0), whose declaration is in the absent `csmaack.h`. -/
def KIND_DATA : Nat := 0

/-- Modelled from the spec: the header kind discriminator of the wire format
(`Ack`=1), whose declaration is in the absent `csmaack.h`. -/
def KIND_ACK : Nat := 1

/-- The fields of a `Packet` the protocol touches: addresses, the completion
code, the `kind` of the MAC header stored under `MAC_DATA`, the length, and an
identifier standing for the payload. -/
structure Packet where
  local_from : Int
  local_to : Int
  kind : MsgKind
  header_kind : Nat
  length : Nat
  payload : Nat
  deriving DecidableEq, Repr

/-- What the class asks of the radio, the timer service and the upper layer. -/
inductive Effect where
  | setRadioListen
  | setRadioSleep
  | setRadioTransmit
  | setTimeout (t : Int) (which : TimerId)
  | cancelTimeout (which : TimerId)
  | startTransmit (msg : Packet)
  | txPacketDone (msg : Packet)
  | rxPacket (msg : Packet)
  deriving DecidableEq, Repr

/-- The constants of `csmaack.h` (absent from the sources) and the identity of
the node, taken as parameters.  `maxPacketRetries` is the value that
`getLongParameter("maxPacketRetries", PACKET_RETRIES)` yields. -/
structure Config where
  nodeId : Int
  BROADCAST : Int
  DATA_CONTEND_TIME : Int
  MAX_DATA_CONTEND_TIME : Int
  ACK_CONTEND_TIME : Int
  TIMEOUT_WFACK : Int
  NAV_ACK : Nat
  maxPacketRetries : Int
  deriving DecidableEq, Repr

/-- What a handler reads from outside the class while it runs: the clock
(`node->getCurrentTime()`), `isReceiving()`, the outcome of the comparison
`getRssi() > 0.5`, and the number the random source yields. -/
structure Env where
  now : Nat
  receiving : Bool
  rssi_high : Bool
  rand : Nat
  deriving DecidableEq, Repr

/-- The member variables of `CsmaAck`, the two timer slots of the timer
service, the radio mode, and the trace of effects issued so far. -/
structure State where
  proto_state : ProtoState
  proto_next_state : ProtoState
  tx_msg : Option Packet
  nav_state : NavState
  nav_end_time : Nat
  data_contend_time : Int
  max_packet_retries : Int
  packet_retries : Int
  ack_to : Int
  stat_tx_drop : Nat
  stat_tx : Nat
  stat_rx : Nat
  proto_timer : Option Int
  nav_timer : Option Int
  radio : RadioMode
  trace : List Effect
  deriving DecidableEq, Repr

open ProtoState NavState MsgKind TimerId RadioMode

/-- Modelled from the spec: the numeric value of a protocol state, as far as
`assert(proto_next_state >= 0)` needs it; the enumeration is declared in the
absent `csmaack.h`, and "no pending action" is its only negative value. -/
def ProtoState.toInt : ProtoState → Int
  | PROTO_STATE_NONE => -1
  | PROTO_STATE_IDLE => 0
  | PROTO_STATE_CONTEND => 1
  | PROTO_STATE_SEND_DATA => 2
  | PROTO_STATE_SEND_ACK => 3
  | PROTO_STATE_WFACK => 4

/-- Width of `ushort`. -/
def USHORT : Nat := 65536

/-- Reduction of an integer to the range of a 32-bit `int` (two's complement). -/
def wrapInt (x : Int) : Int :=
  (x + 2147483648) % 4294967296 - 2147483648

/-- Modelled from the spec: `intuniform(a, b)` of the simulation kernel, a draw
in the closed range from `a` to `b`, here determined by the number `r` the
random source yields. -/
def intuniform (a b : Int) (r : Nat) : Int :=
  a + (r : Int) % (b - a + 1)

/-! ## Radio, timer service and upper layer -/

def setRadioListen (s : State) : State :=
  { s with radio := LISTEN, trace := s.trace ++ [Effect.setRadioListen] }

def setRadioSleep (s : State) : State :=
  { s with radio := SLEEP, trace := s.trace ++ [Effect.setRadioSleep] }

def setRadioTransmit (s : State) : State :=
  { s with radio := TRANSMIT, trace := s.trace ++ [Effect.setRadioTransmit] }

/-- Arming a slot replaces what was pending on it. -/
def setTimeout (t : Int) (which : TimerId) (s : State) : State :=
  match which with
  | TIMER_PROTOCOL =>
    { s with proto_timer := some t, trace := s.trace ++ [Effect.setTimeout t which] }
  | TIMER_NAV =>
    { s with nav_timer := some t, trace := s.trace ++ [Effect.setTimeout t which] }
  | UNKNOWN => { s with trace := s.trace ++ [Effect.setTimeout t which] }

def cancelTimeout (which : TimerId) (s : State) : State :=
  match which with
  | TIMER_PROTOCOL =>
    { s with proto_timer := none, trace := s.trace ++ [Effect.cancelTimeout which] }
  | TIMER_NAV =>
    { s with nav_timer := none, trace := s.trace ++ [Effect.cancelTimeout which] }
  | UNKNOWN => { s with trace := s.trace ++ [Effect.cancelTimeout which] }

def startTransmit (msg : Packet) (s : State) : State :=
  { s with trace := s.trace ++ [Effect.startTransmit msg] }

def txPacketDone (msg : Packet) (s : State) : State :=
  { s with trace := s.trace ++ [Effect.txPacketDone msg] }

def rxPacket (msg : Packet) (s : State) : State :=
  { s with trace := s.trace ++ [Effect.rxPacket msg] }

def setProtocolTimeout (t : Int) (s : State) : State :=
  setTimeout t TIMER_PROTOCOL s

def setNavTimeout (t : Int) (s : State) : State :=
  setTimeout t TIMER_NAV s

/-! ## Backoff -/

/-- The window is an `int`: the product is reduced to 32 bits. -/
def incBackoff (cfg : Config) (s : State) : State :=
  let s := { s with data_contend_time := wrapInt (s.data_contend_time * 2) }
  if s.data_contend_time > cfg.MAX_DATA_CONTEND_TIME then
    { s with data_contend_time := cfg.MAX_DATA_CONTEND_TIME }
  else s

def decBackoff (cfg : Config) (s : State) : State :=
  { s with data_contend_time := cfg.DATA_CONTEND_TIME }

/-! ## Idle re-evaluation and contention -/

/-- Position of a call in the chain `setIdle`, `evalState`, `startContending`:
`evalState` reaches `startContending` only with a clear NAV, and
`startContending` reaches `setIdle` only with a busy one. -/
def rank (n : NavState) (clear busy : Nat) : Nat :=
  match n with
  | NAV_STATE_CLEAR => clear
  | NAV_STATE_BUSY => busy

mutual

def setIdle (cfg : Config) (env : Env) (s : State) : Option State :=
  evalState cfg env { s with proto_state := PROTO_STATE_IDLE }
termination_by rank s.nav_state 3 2
decreasing_by
  all_goals simp_wf
  all_goals cases s.nav_state <;> simp [rank]

def evalState (cfg : Config) (env : Env) (s : State) : Option State :=
  if s.proto_state = PROTO_STATE_IDLE ∧ env.receiving = false then
    if _h : s.nav_state = NAV_STATE_CLEAR then
      match s.tx_msg with
      | some _ =>
        startContending cfg env cfg.DATA_CONTEND_TIME
          { s with proto_next_state := PROTO_STATE_SEND_DATA }
      | none => some (setRadioListen s)
    else
      some (setRadioSleep s)
  else
    some s
termination_by rank s.nav_state 2 1
decreasing_by
  all_goals simp_wf
  all_goals simp [_h, rank]

def startContending (cfg : Config) (env : Env) (time : Int) (s : State) : Option State :=
  if s.proto_next_state.toInt < 0 then none
  else if time < 5 then none
  else if _h : s.nav_state = NAV_STATE_BUSY then
    setIdle cfg env { s with proto_next_state := PROTO_STATE_NONE }
  else
    let s := { s with proto_state := PROTO_STATE_CONTEND }
    let ctime := intuniform 5 time env.rand
    let s := setRadioListen s
    some (setProtocolTimeout ctime s)
termination_by rank s.nav_state 1 3
decreasing_by
  all_goals simp_wf
  all_goals simp [_h, rank]

end

/-! ## Transmission -/

def sendAck (cfg : Config) (s : State) : Option State :=
  let s := { s with proto_state := PROTO_STATE_SEND_ACK }
  let msg : Packet :=
    { local_from := cfg.nodeId, local_to := s.ack_to, kind := UNSET,
      header_kind := KIND_ACK, length := 0, payload := 0 }
  if s.ack_to < 0 then none
  else
    let s := setRadioTransmit s
    some (startTransmit msg s)

def sendData (cfg : Config) (s : State) : Option State :=
  let s := { s with proto_state := PROTO_STATE_SEND_DATA }
  match s.tx_msg with
  | none => none
  | some tx =>
    if tx.local_to = cfg.nodeId then none
    else
      let msg : Packet := { tx with local_from := cfg.nodeId, header_kind := KIND_DATA }
      let s :=
        if msg.local_to = cfg.BROADCAST then
          { s with proto_next_state := PROTO_STATE_IDLE }
        else
          { s with proto_next_state := PROTO_STATE_WFACK }
      let s := setRadioTransmit s
      some (startTransmit msg s)

/-! ## NAV -/

/-- The argument, the clock and the deadline are `ushort`: all arithmetic is
modulo `USHORT`. -/
def updateNav (env : Env) (t : Nat) (s : State) : Option State :=
  let t := t % USHORT
  if t = 0 then none
  else
    let now := env.now % USHORT
    let nav_left := (s.nav_end_time + USHORT - now) % USHORT
    if s.nav_state = NAV_STATE_CLEAR ∨ t > nav_left then
      let s := setNavTimeout t s
      some { s with nav_state := NAV_STATE_BUSY, nav_end_time := (t + now) % USHORT }
    else
      some s

def navTimeout (cfg : Config) (env : Env) (s : State) : Option State :=
  evalState cfg env { s with nav_state := NAV_STATE_CLEAR }

/-! ## Reception -/

/-- A null `tx_msg` met by `msg->local_from != tx_msg->local_to` aborts. -/
def receiveAck (cfg : Config) (env : Env) (msg : Packet) (s : State) : Option State :=
  if msg.local_to = -1 then none
  else if msg.local_to = cfg.nodeId then
    if s.proto_state ≠ PROTO_STATE_WFACK then some s
    else
      match s.tx_msg with
      | none => none
      | some tx =>
        if msg.local_from ≠ tx.local_to then some s
        else
          let s := cancelTimeout TIMER_PROTOCOL s
          let s := decBackoff cfg s
          let s := { s with stat_tx := s.stat_tx + 1 }
          let s := txPacketDone { tx with kind := TX_DONE } s
          let s := { s with tx_msg := none }
          setIdle cfg env s
  else
    some s

def receiveData (cfg : Config) (env : Env) (msg : Packet) (s : State) : Option State :=
  if msg.local_to = cfg.nodeId then
    let s := { s with ack_to := msg.local_from }
    let s := rxPacket msg s
    let s := { s with stat_rx := s.stat_rx + 1 }
    let s := { s with proto_next_state := PROTO_STATE_SEND_ACK }
    startContending cfg env cfg.ACK_CONTEND_TIME s
  else if msg.local_to = cfg.BROADCAST then
    let s := { s with proto_state := PROTO_STATE_IDLE, proto_next_state := PROTO_STATE_IDLE }
    let s := rxPacket msg s
    some { s with stat_rx := s.stat_rx + 1 }
  else
    let s := { s with proto_state := PROTO_STATE_IDLE, proto_next_state := PROTO_STATE_IDLE }
    updateNav env cfg.NAV_ACK s

/-! ## Event handlers -/

/-- The state `CsmaAck::initialize()` leaves.  It assigns neither `packet_retries`
nor `ack_to`; their indeterminate values are the two extra arguments. -/
def initialise (cfg : Config) (packet_retries ack_to : Int) : State :=
  setRadioListen
    { proto_state := PROTO_STATE_IDLE
      proto_next_state := PROTO_STATE_NONE
      tx_msg := none
      nav_state := NAV_STATE_CLEAR
      nav_end_time := 0
      data_contend_time := cfg.DATA_CONTEND_TIME
      max_packet_retries := cfg.maxPacketRetries
      packet_retries := packet_retries
      ack_to := ack_to
      stat_tx_drop := 0
      stat_tx := 0
      stat_rx := 0
      proto_timer := none
      nav_timer := none
      radio := SLEEP
      trace := [] }

def txPacket (cfg : Config) (env : Env) (msg : Packet) (s : State) : Option State :=
  if msg.local_to = cfg.nodeId then none
  else
    match s.tx_msg with
    | some _ => some { s with stat_tx_drop := s.stat_tx_drop + 1 }
    | none =>
      (evalState cfg env { s with tx_msg := some msg }).map
        fun s => { s with packet_retries := s.max_packet_retries }

def rxFrame (cfg : Config) (env : Env) (msg : Packet) (s : State) : Option State :=
  let s :=
    if s.proto_state = PROTO_STATE_WFACK ∧
        (msg.header_kind ≠ KIND_ACK ∨ msg.local_to ≠ cfg.nodeId) then
      let s := incBackoff cfg s
      let s := cancelTimeout TIMER_PROTOCOL s
      { s with proto_state := PROTO_STATE_IDLE }
    else s
  let r :=
    if msg.header_kind = KIND_ACK then receiveAck cfg env msg s
    else if msg.header_kind = KIND_DATA then receiveData cfg env msg s
    else none
  r.bind (evalState cfg env)

def transmitDone (cfg : Config) (env : Env) (s : State) : Option State :=
  match s.proto_state with
  | PROTO_STATE_SEND_ACK => setIdle cfg env s
  | PROTO_STATE_SEND_DATA =>
    let s := { s with proto_state := s.proto_next_state }
    let s :=
      if s.proto_state = PROTO_STATE_WFACK then setProtocolTimeout cfg.TIMEOUT_WFACK s
      else s
    match s.tx_msg with
    | none => none
    | some tx =>
      let s :=
        if tx.local_to = cfg.BROADCAST then
          let s := { s with stat_tx := s.stat_tx + 1 }
          let s := txPacketDone { tx with kind := TX_DONE } s
          { s with tx_msg := none }
        else s
      some (setRadioListen s)
  | _ => none

def rxFailed (cfg : Config) (env : Env) (s : State) : Option State :=
  evalState cfg env s

def rxStarted (s : State) : State :=
  if s.proto_state = PROTO_STATE_CONTEND then
    let s := cancelTimeout TIMER_PROTOCOL s
    { s with proto_state := PROTO_STATE_IDLE, proto_next_state := PROTO_STATE_NONE }
  else s

/-- A null `tx_msg` met by `tx_msg->setKind(TX_FAILED)` aborts. -/
def protocolTimeout (cfg : Config) (env : Env) (s : State) : Option State :=
  match s.proto_state with
  | PROTO_STATE_CONTEND =>
    if s.proto_next_state.toInt < 0 then none
    else if env.receiving then none
    else if s.nav_state ≠ NAV_STATE_CLEAR then none
    else
      let s := setRadioListen s
      if env.rssi_high then setIdle cfg env s
      else
        let next_state := s.proto_next_state
        let s := { s with proto_next_state := PROTO_STATE_NONE }
        match next_state with
        | PROTO_STATE_SEND_ACK => sendAck cfg s
        | PROTO_STATE_SEND_DATA => sendData cfg s
        | _ => none
  | PROTO_STATE_WFACK =>
    let retries := s.packet_retries
    let s := { s with packet_retries := wrapInt (retries - 1) }
    if retries = 0 then
      let s := { s with stat_tx_drop := s.stat_tx_drop + 1 }
      match s.tx_msg with
      | none => none
      | some tx =>
        let s := txPacketDone { tx with kind := TX_FAILED } s
        some { s with tx_msg := none }
    else
      let s := incBackoff cfg s
      setIdle cfg env s
  | _ => none

def headerLength : Int := 7

def timeout (cfg : Config) (env : Env) (which : TimerId) (s : State) : Option State :=
  match which with
  | TIMER_PROTOCOL => protocolTimeout cfg env s
  | TIMER_NAV => navTimeout cfg env s
  | UNKNOWN => none

/-! ## Events and runs -/

/-- The calls the surroundings make on the class. -/
inductive Event where
  | txPacket (msg : Packet)
  | rxFrame (msg : Packet)
  | rxStarted
  | rxFailed
  | transmitDone
  | timeout (which : TimerId)
  deriving DecidableEq, Repr

/-- Modelled from the spec: the timer service is single-shot, so the slot of a
timer that expires is no longer armed when its handler runs.  The service is
not part of the sources. -/
def expire (which : TimerId) (s : State) : State :=
  match which with
  | TIMER_PROTOCOL => { s with proto_timer := none }
  | TIMER_NAV => { s with nav_timer := none }
  | UNKNOWN => s

/-- One event, handled to completion. -/
def step (cfg : Config) (env : Env) (ev : Event) (s : State) : Option State :=
  match ev with
  | Event.txPacket msg => txPacket cfg env msg s
  | Event.rxFrame msg => rxFrame cfg env msg s
  | Event.rxStarted => some (rxStarted s)
  | Event.rxFailed => rxFailed cfg env s
  | Event.transmitDone => transmitDone cfg env s
  | Event.timeout which => timeout cfg env which (expire which s)

/-- A sequence of events, each with what the surroundings show while it is
handled; `none` as soon as one handler aborts. -/
def run (cfg : Config) : List (Env × Event) → State → Option State
  | [], s => some s
  | (env, ev) :: rest, s => (step cfg env ev s).bind (run cfg rest)

/-- States the machine can be in after `initialize()` and any sequence of
events none of which aborted. -/
inductive Reachable (cfg : Config) : State → Prop where
  | init (packet_retries ack_to : Int) :
      Reachable cfg (initialise cfg packet_retries ack_to)
  | step (env : Env) (ev : Event) (s s' : State) :
      Reachable cfg s → step cfg env ev s = some s' → Reachable cfg s'

/-! ## Reading a trace -/

/-- The frames of kind DATA handed to the radio, in order. -/
def dataTransmissions (tr : List Effect) : List Packet :=
  tr.filterMap fun e =>
    match e with
    | Effect.startTransmit msg => if msg.header_kind = KIND_DATA then some msg else none
    | _ => none

/-- The packets handed back to the caller by `txPacketDone`, in order. -/
def completions (tr : List Effect) : List Packet :=
  tr.filterMap fun e =>
    match e with
    | Effect.txPacketDone msg => some msg
    | _ => none

/-- The state `startContending` leaves when the NAV is clear: Contending, radio
listening, protocol timer armed with the drawn delay. -/
def contending (env : Env) (time : Int) (s : State) : State :=
  setProtocolTimeout (intuniform 5 time env.rand)
    (setRadioListen { s with proto_state := PROTO_STATE_CONTEND })

/-! ## Invariants -/

/-- In Contending a pending action is recorded, and the pending next state is
never Contending itself. -/
def PendingOk (s : State) : Prop :=
  s.proto_next_state ≠ PROTO_STATE_CONTEND ∧
    (s.proto_state = PROTO_STATE_CONTEND →
      s.proto_next_state = PROTO_STATE_SEND_DATA ∨ s.proto_next_state = PROTO_STATE_SEND_ACK)

/-! ## A send that is never acknowledged -/

/-- One attempt that no frame answers: the contention timer expires, the radio
reports the end of the transmission, the ack-wait timer expires. -/
def attempt (e : Env × Env × Env) : List (Env × Event) :=
  [(e.1, Event.timeout TIMER_PROTOCOL), (e.2.1, Event.transmitDone),
   (e.2.2, Event.timeout TIMER_PROTOCOL)]

/-- Consecutive attempts, one per triple of surroundings. -/
def attempts : List (Env × Env × Env) → List (Env × Event)
  | [] => []
  | e :: rest => attempt e ++ attempts rest

/-- No reception is in progress at either timer expiry, and the channel sample
taken at the end of contention does not exceed 0.5. -/
def Silent (e : Env × Env × Env) : Prop :=
  e.1.receiving = false ∧ e.1.rssi_high = false ∧ e.2.2.receiving = false

/-- The frame `sendData` builds from the held packet. -/
def dataFrame (cfg : Config) (tx : Packet) : Packet :=
  { tx with local_from := cfg.nodeId, header_kind := KIND_DATA }

/-- The machine contends for the DATA transmission of `tx` with `r` retries left
and window `w`. -/
structure Attempting (tx : Packet) (r w : Int) (s : State) : Prop where
  state : s.proto_state = PROTO_STATE_CONTEND
  next : s.proto_next_state = PROTO_STATE_SEND_DATA
  nav : s.nav_state = NAV_STATE_CLEAR
  held : s.tx_msg = some tx
  retries : s.packet_retries = r
  window : s.data_contend_time = w

/-! ## Sample inputs -/

/-- Node 1 with a base window of 10, a retry maximum of 2 and an ack window of 15. -/
def sampleConfig : Config :=
  { nodeId := 1, BROADCAST := -1, DATA_CONTEND_TIME := 10, MAX_DATA_CONTEND_TIME := 100,
    ACK_CONTEND_TIME := 6, TIMEOUT_WFACK := 20, NAV_ACK := 15, maxPacketRetries := 2 }

/-- Surroundings with a silent channel and no reception in progress. -/
def quietAt (now : Nat) : Env :=
  { now := now, receiving := false, rssi_high := false, rand := 3 }

/-- A unicast packet for node 5. -/
def samplePacket : Packet :=
  { local_from := 1, local_to := 5, kind := UNSET, header_kind := 0, length := 4, payload := 42 }

/-- A second packet, for node 7. -/
def otherPacket : Packet :=
  { local_from := 1, local_to := 7, kind := UNSET, header_kind := 0, length := 2, payload := 43 }

/-- The initial state of the sample node. -/
def sampleInit : State := initialise sampleConfig 0 0

/-- The sample node holding `samplePacket`. -/
def heldState : State := { sampleInit with tx_msg := some samplePacket }

/-- The sample node with a given NAV state and deadline. -/
def navSample (ns : NavState) (deadline : Nat) : State :=
  { sampleInit with nav_state := ns, nav_end_time := deadline }

/-- The sample node waiting for the acknowledgement of `samplePacket`. -/
def waitingState : State :=
  { sampleInit with
    proto_state := PROTO_STATE_WFACK
    proto_next_state := PROTO_STATE_WFACK
    tx_msg := some samplePacket
    proto_timer := some 20 }

/-- The acknowledgement node 5 sends to node 1. -/
def sampleAck : Packet :=
  { local_from := 5, local_to := 1, kind := UNSET, header_kind := 1, length := 0, payload := 0 }

/-- A broadcast packet. -/
def broadcastPacket : Packet :=
  { local_from := 1, local_to := -1, kind := UNSET, header_kind := 0, length := 4, payload := 44 }

/-- The sample node holding `broadcastPacket`. -/
def heldBroadcast : State := { sampleInit with tx_msg := some broadcastPacket }

/-- The sample node contending for the transmission of `samplePacket`. -/
def contendingState : State :=
  contending (quietAt 0) 10 { heldState with proto_next_state := PROTO_STATE_SEND_DATA }

/-- The state in which `txPacket` of `samplePacket` leaves the sample node. -/
def acceptedState : State :=
  { contendingState with packet_retries := 2 }

/-- Zero retries. -/
def noRetryConfig : Config := { sampleConfig with maxPacketRetries := 0 }

/-- A unicast send whose only attempt is not acknowledged. -/
def exhaustedRun : List (Env × Event) :=
  (quietAt 0, Event.txPacket samplePacket) :: attempt (quietAt 10, quietAt 20, quietAt 40)

/-- Three silent attempts. -/
def sampleEnvs : List (Env × Env × Env) :=
  [(quietAt 10, quietAt 20, quietAt 40), (quietAt 50, quietAt 60, quietAt 80),
   (quietAt 90, quietAt 100, quietAt 120)]

/-- A DATA frame node 5 sends to node 7. -/
def overheardFrame : Packet :=
  { local_from := 5, local_to := 7, kind := UNSET, header_kind := 0, length := 4, payload := 45 }

/-- Surroundings with a busy channel and no reception in progress. -/
def noisyAt (now : Nat) : Env :=
  { now := now, receiving := false, rssi_high := true, rand := 3 }

/-- A unicast DATA frame node 5 sends to node 1. -/
def unicastFrame : Packet :=
  { local_from := 5, local_to := 1, kind := UNSET, header_kind := 0, length := 4, payload := 46 }

/-- A broadcast DATA frame sent by node 5. -/
def broadcastFrame : Packet :=
  { local_from := 5, local_to := -1, kind := UNSET, header_kind := 0, length := 4, payload := 47 }

/-- The unacknowledged single attempt of `exhaustedRun`, after which a reception
is announced. -/
def lateAckRun : List (Env × Event) :=
  exhaustedRun ++ [(quietAt 45, Event.rxStarted)]

/-- A first attempt that is not acknowledged, with two retries configured; `r` is
what the random source yields when the retry starts to contend. -/
def retryRun (r : Nat) : List (Env × Event) :=
  [(quietAt 0, Event.txPacket samplePacket), (quietAt 10, Event.timeout TIMER_PROTOCOL),
   (quietAt 20, Event.transmitDone),
   ({ quietAt 40 with rand := r }, Event.timeout TIMER_PROTOCOL)]

/-- A unicast frame for this node is received, and the contention for its
acknowledgement ends with a busy channel. -/
def abortedAckRun : List (Env × Event) :=
  [(quietAt 5, Event.rxStarted), (quietAt 10, Event.rxFrame unicastFrame),
   (noisyAt 14, Event.timeout TIMER_PROTOCOL)]

/-- With no retry configured, a broadcast frame of another node arrives during
the wait for the acknowledgement, and the contention that follows expires. -/
def disturbedRun : List (Env × Event) :=
  [(quietAt 0, Event.txPacket samplePacket), (quietAt 10, Event.timeout TIMER_PROTOCOL),
   (quietAt 20, Event.transmitDone), (quietAt 25, Event.rxStarted),
   (quietAt 30, Event.rxFrame broadcastFrame), (quietAt 38, Event.timeout TIMER_PROTOCOL)]

/-- Two receptions overlap: a unicast frame for this node is delivered, then a
broadcast frame. -/
def overlapRun : List (Env × Event) :=
  [(quietAt 5, Event.rxStarted), (quietAt 6, Event.rxStarted),
   (quietAt 10, Event.rxFrame unicastFrame), (quietAt 11, Event.rxFrame broadcastFrame)]

/-- Contending only happens with a Clear NAV, and the pending next state is never
Contending itself. -/
def ContendClear (s : State) : Prop :=
  s.proto_next_state ≠ PROTO_STATE_CONTEND ∧
    (s.proto_state = PROTO_STATE_CONTEND → s.nav_state = NAV_STATE_CLEAR)

/-- The protocol state is a proper state, and in SendingData a packet is held and
the pending next state is where `sendData` pointed it: Idle for a broadcast,
WaitingForAck otherwise. -/
def SendOk (cfg : Config) (s : State) : Prop :=
  s.proto_state ≠ PROTO_STATE_NONE ∧
    (s.proto_state = PROTO_STATE_SEND_DATA →
      ∃ tx, s.tx_msg = some tx ∧
        s.proto_next_state =
          (if tx.local_to = cfg.BROADCAST then PROTO_STATE_IDLE else PROTO_STATE_WFACK))

/-- The sample node after the contention for `samplePacket` expired on a silent
channel: the frame is with the radio. -/
def sendingState : State :=
  startTransmit (dataFrame sampleConfig samplePacket)
    (setRadioTransmit
      { setRadioListen { acceptedState with proto_timer := none } with
        proto_state := PROTO_STATE_SEND_DATA
        proto_next_state := PROTO_STATE_WFACK })

/-! ## Closed forms of the idle re-evaluation and of contention -/

theorem startContending_spec (cfg : Config) (env : Env) (time : Int) (s : State) :
    startContending cfg env time s =
      if s.proto_next_state.toInt < 0 then none
      else if time < 5 then none
      else if s.nav_state = NAV_STATE_BUSY then
        (if env.receiving = false then
          some (setRadioSleep
            { s with proto_next_state := PROTO_STATE_NONE, proto_state := PROTO_STATE_IDLE })
        else
          some { s with proto_next_state := PROTO_STATE_NONE, proto_state := PROTO_STATE_IDLE })
      else some (contending env time s) := by
  rw [startContending]
  split
  · rfl
  split
  · rfl
  split
  · rename_i hb
    rw [setIdle, evalState]
    simp [hb]
  · rfl

theorem evalState_spec (cfg : Config) (env : Env) (s : State) :
    evalState cfg env s =
      if s.proto_state = PROTO_STATE_IDLE ∧ env.receiving = false then
        if s.nav_state = NAV_STATE_CLEAR then
          match s.tx_msg with
          | some _ =>
            if cfg.DATA_CONTEND_TIME < 5 then none
            else some (contending env cfg.DATA_CONTEND_TIME
              { s with proto_next_state := PROTO_STATE_SEND_DATA })
          | none => some (setRadioListen s)
        else some (setRadioSleep s)
      else some s := by
  rw [evalState]
  split
  · split
    · rename_i hc
      split
      · rw [startContending_spec]
        simp [ProtoState.toInt, hc]
      · rfl
    · rfl
  · rfl

theorem evalState_cases (cfg : Config) (env : Env) (s s' : State)
    (h : evalState cfg env s = some s') :
    s' = s ∨ s' = setRadioListen s ∨ s' = setRadioSleep s ∨
      s' = contending env cfg.DATA_CONTEND_TIME
        { s with proto_next_state := PROTO_STATE_SEND_DATA } := by
  rw [evalState_spec] at h
  split at h
  · split at h
    · split at h
      · split at h
        · cases h
        · cases h; simp
      · cases h; simp
    · cases h; simp
  · cases h; simp

theorem startContending_cases (cfg : Config) (env : Env) (time : Int) (s s' : State)
    (h : startContending cfg env time s = some s') :
    s.proto_next_state ≠ PROTO_STATE_NONE ∧ 5 ≤ time ∧
    ((s.nav_state = NAV_STATE_BUSY ∧
        (s' = setRadioSleep
            { s with proto_next_state := PROTO_STATE_NONE, proto_state := PROTO_STATE_IDLE } ∨
          s' = { s with proto_next_state := PROTO_STATE_NONE, proto_state := PROTO_STATE_IDLE })) ∨
      (s.nav_state = NAV_STATE_CLEAR ∧ s' = contending env time s)) := by
  rw [startContending_spec] at h
  split at h
  · cases h
  rename_i hx
  have hx' : s.proto_next_state ≠ PROTO_STATE_NONE := by
    intro h0; rw [h0] at hx; simp [ProtoState.toInt] at hx
  split at h
  · cases h
  rename_i ht
  refine ⟨hx', not_lt.mp ht, ?_⟩
  split at h
  · rename_i hb
    left
    split at h <;> cases h <;> simp [hb]
  · rename_i hb
    right
    cases h
    cases hn : s.nav_state <;> simp_all

theorem setIdle_spec (cfg : Config) (env : Env) (s : State) :
    setIdle cfg env s = evalState cfg env { s with proto_state := PROTO_STATE_IDLE } := by
  rw [setIdle]

theorem incBackoff_eq (cfg : Config) (s : State) :
    incBackoff cfg s = { s with data_contend_time :=
      (if cfg.MAX_DATA_CONTEND_TIME < wrapInt (s.data_contend_time * 2) then
        cfg.MAX_DATA_CONTEND_TIME else wrapInt (s.data_contend_time * 2)) } := by
  unfold incBackoff
  split <;> simp_all

/-! ## C1: a send while a transmission is held -/

/-- C1: when an outbound transmission is already held, `txPacket` of a packet
(one that passes the entry assertion, i.e. not addressed to this node) only
adds one to the drop counter: every other field of the state, the timer slots,
the radio mode and the trace of issued commands included, is unchanged. -/
theorem txPacket_busy (cfg : Config) (env : Env) (msg tx : Packet) (s : State)
    (hmsg : msg.local_to ≠ cfg.nodeId) (hheld : s.tx_msg = some tx) :
    txPacket cfg env msg s = some { s with stat_tx_drop := s.stat_tx_drop + 1 } := by
  simp [txPacket, hmsg, hheld]

/-- Witness of `txPacket_busy`: the sample node, holding a packet, is offered another. -/
theorem txPacket_busy_witness :
    txPacket sampleConfig (quietAt 0) otherPacket heldState
      = some { heldState with stat_tx_drop := heldState.stat_tx_drop + 1 } :=
  txPacket_busy sampleConfig (quietAt 0) otherPacket samplePacket heldState (by decide) rfl

/-! ## C2: the NAV deadline under `updateNav` -/

/-- C2, as stated, fails: the deadline is a 16-bit value and can decrease.  With
a Busy NAV ending at 65530, `updateNav(15)` at time 65525 moves the deadline to
4; with a Clear NAV whose last deadline was 65530, `updateNav(15)` at time
65546 (clock value 10) moves it to 25. -/
theorem updateNav_deadline_decreases :
    (updateNav (quietAt 65525) 15 (navSample NAV_STATE_BUSY 65530)).map (·.nav_end_time)
        = some 4 ∧
      (updateNav (quietAt 65546) 15 (navSample NAV_STATE_CLEAR 65530)).map (·.nav_end_time)
        = some 25 := by
  decide

/-- C2, amended: for a 16-bit duration `t > 0`, (a) when the NAV is Busy and `t`
does not exceed the remaining time (deadline minus clock, modulo 2^16),
`updateNav t` changes nothing at all; (b) when clock + `t` does not wrap around
2^16 and, for a Clear NAV, the stale deadline is not later than clock + `t`,
`updateNav t` returns and the deadline after it is at least the deadline
before. -/
theorem updateNav_deadline (env : Env) (t : Nat) (s : State) (ht : 0 < t) (htu : t < USHORT) :
    (s.nav_state = NAV_STATE_BUSY →
      t ≤ (s.nav_end_time + USHORT - env.now % USHORT) % USHORT →
      updateNav env t s = some s) ∧
    (s.nav_end_time < USHORT → env.now % USHORT + t < USHORT →
      (s.nav_state = NAV_STATE_CLEAR → s.nav_end_time ≤ env.now % USHORT + t) →
      ∃ s', updateNav env t s = some s' ∧ s.nav_end_time ≤ s'.nav_end_time) := by
  have ht0 : t % USHORT = t := Nat.mod_eq_of_lt htu
  have hne : t ≠ 0 := by omega
  constructor
  · intro hb hle
    simp [updateNav, ht0, hne, hb, not_lt.mpr hle]
  · intro hd hw hc
    unfold updateNav
    simp only [ht0, hne, if_false]
    split
    · refine ⟨_, rfl, ?_⟩
      rename_i hupd
      simp only [USHORT] at *
      rcases hupd with hcl | hgt
      · have := hc hcl
        simp [setNavTimeout, setTimeout]
        omega
      · simp [setNavTimeout, setTimeout]
        omega
    · exact ⟨s, rfl, le_refl _⟩

/-- Witness of `updateNav_deadline`: a Busy NAV ending at 115; at time 105 a
request for 5 is a no-op, and a request for 15 moves the deadline up. -/
theorem updateNav_deadline_witness :
    updateNav (quietAt 105) 5 (navSample NAV_STATE_BUSY 115)
        = some (navSample NAV_STATE_BUSY 115) ∧
      ∃ s', updateNav (quietAt 105) 15 (navSample NAV_STATE_BUSY 115) = some s' ∧
        (navSample NAV_STATE_BUSY 115).nav_end_time ≤ s'.nav_end_time :=
  ⟨(updateNav_deadline (quietAt 105) 5 (navSample NAV_STATE_BUSY 115)
      (by decide) (by decide)).1 rfl (by decide),
   (updateNav_deadline (quietAt 105) 15 (navSample NAV_STATE_BUSY 115)
      (by decide) (by decide)).2 (by decide) (by decide) (by decide)⟩

/-! ## C3: the backoff window -/

theorem wrapInt_id (x : Int) (h0 : -2147483648 ≤ x) (h1 : x < 2147483648) :
    wrapInt x = x := by
  unfold wrapInt; omega

theorem incBackoff_window (cfg : Config) (s : State)
    (h0 : 0 ≤ s.data_contend_time) (h1 : s.data_contend_time ≤ cfg.MAX_DATA_CONTEND_TIME)
    (h2 : cfg.MAX_DATA_CONTEND_TIME < 1073741824) :
    (incBackoff cfg s).data_contend_time
      = min (s.data_contend_time * 2) cfg.MAX_DATA_CONTEND_TIME := by
  have hw : wrapInt (s.data_contend_time * 2) = s.data_contend_time * 2 :=
    wrapInt_id _ (by omega) (by omega)
  unfold incBackoff
  simp only [hw]
  split
  · rename_i h; simp only [gt_iff_lt] at h; rw [min_eq_right (le_of_lt h)]
  · rename_i h; simp only [gt_iff_lt, not_lt] at h; rw [min_eq_left h]

/-- C3: with constants `0 ≤ DATA_CONTEND_TIME ≤ MAX_DATA_CONTEND_TIME < 2^30`,
from a window equal to the base (as `initialize()` leaves it) the window after
`k` consecutive `incBackoff` calls is `min (base * 2^k) max`, for every `k`; and
from any state one `decBackoff` sets the window to the base. -/
theorem backoff_window (cfg : Config) (s : State) (k : Nat)
    (h0 : 0 ≤ cfg.DATA_CONTEND_TIME)
    (h1 : cfg.DATA_CONTEND_TIME ≤ cfg.MAX_DATA_CONTEND_TIME)
    (h2 : cfg.MAX_DATA_CONTEND_TIME < 1073741824)
    (hs : s.data_contend_time = cfg.DATA_CONTEND_TIME) :
    ((incBackoff cfg)^[k] s).data_contend_time
        = min (cfg.DATA_CONTEND_TIME * 2 ^ k) cfg.MAX_DATA_CONTEND_TIME ∧
      ∀ s' : State, (decBackoff cfg s').data_contend_time = cfg.DATA_CONTEND_TIME := by
  refine ⟨?_, fun _ => rfl⟩
  induction k with
  | zero => simp [hs, h1]
  | succ n ih =>
    rw [Function.iterate_succ_apply']
    have hpos : 0 ≤ cfg.DATA_CONTEND_TIME * 2 ^ n := by positivity
    have hlo : 0 ≤ ((incBackoff cfg)^[n] s).data_contend_time := by
      rw [ih]; exact le_min hpos (le_trans h0 h1)
    have hhi : ((incBackoff cfg)^[n] s).data_contend_time ≤ cfg.MAX_DATA_CONTEND_TIME := by
      rw [ih]; exact min_le_right _ _
    rw [incBackoff_window cfg _ hlo hhi h2, ih, pow_succ, ← mul_assoc]
    generalize cfg.DATA_CONTEND_TIME * 2 ^ n = x at hpos
    generalize cfg.MAX_DATA_CONTEND_TIME = m at *
    simp only [min_def]
    split_ifs <;> omega

/-- Witness of `backoff_window`: base 10, maximum 100, four failures in a row
from the initial state. -/
theorem backoff_window_witness :
    ((incBackoff sampleConfig)^[4] sampleInit).data_contend_time
        = min (sampleConfig.DATA_CONTEND_TIME * 2 ^ 4) sampleConfig.MAX_DATA_CONTEND_TIME ∧
      ∀ s' : State, (decBackoff sampleConfig s').data_contend_time
        = sampleConfig.DATA_CONTEND_TIME :=
  backoff_window sampleConfig sampleInit 4 (by decide) (by decide) (by decide) rfl

/-! ## C4: a unicast send that is never acknowledged -/

theorem run_append (cfg : Config) (l1 l2 : List (Env × Event)) (s : State) :
    run cfg (l1 ++ l2) s = (run cfg l1 s).bind (run cfg l2) := by
  induction l1 generalizing s with
  | nil => simp [run]
  | cons a l ih =>
    obtain ⟨env, ev⟩ := a
    simp only [List.cons_append, run]
    cases step cfg env ev s with
    | none => simp
    | some s1 => simp [ih]

theorem dataTransmissions_append (l1 l2 : List Effect) :
    dataTransmissions (l1 ++ l2) = dataTransmissions l1 ++ dataTransmissions l2 := by
  simp [dataTransmissions]

theorem completions_append (l1 l2 : List Effect) :
    completions (l1 ++ l2) = completions l1 ++ completions l2 := by
  simp [completions]

theorem double_min (x m : Int) (hm : 0 ≤ m) :
    (if m < min x m * 2 then m else min x m * 2) = min (x * 2) m := by
  simp only [min_def]
  split_ifs <;> omega

theorem attempt_retry (cfg : Config) (e : Env × Env × Env) (s : State) (tx : Packet)
    (r : Nat) (w : Int)
    (hto : tx.local_to ≠ cfg.nodeId) (hb : tx.local_to ≠ cfg.BROADCAST)
    (hbase : 5 ≤ cfg.DATA_CONTEND_TIME)
    (he : Silent e) (hr : r + 1 < 2147483648)
    (hw0 : 0 ≤ w) (hw1 : w ≤ cfg.MAX_DATA_CONTEND_TIME)
    (hm : cfg.MAX_DATA_CONTEND_TIME < 1073741824)
    (hs : Attempting tx (r + 1 : Nat) w s) :
    ∃ s', run cfg (attempt e) s = some s' ∧
      Attempting tx r (if cfg.MAX_DATA_CONTEND_TIME < w * 2 then cfg.MAX_DATA_CONTEND_TIME else w * 2) s' ∧
      dataTransmissions s'.trace = dataTransmissions s.trace ++ [dataFrame cfg tx] ∧
      completions s'.trace = completions s.trace ∧
      s'.stat_tx_drop = s.stat_tx_drop := by
  obtain ⟨hp, hx, hn, ht, hrt, hw⟩ := hs
  obtain ⟨h1, h2, h3⟩ := he
  have hbase' : ¬ cfg.DATA_CONTEND_TIME < 5 := not_lt.mpr hbase
  have hr0 : s.packet_retries ≠ 0 := by rw [hrt]; push_cast; omega
  have hwr : wrapInt (s.packet_retries - 1) = r := by
    rw [hrt, wrapInt_id] <;> push_cast <;> omega
  have hww : wrapInt (w * 2) = w * 2 := wrapInt_id _ (by omega) (by omega)
  simp [attempt, run, step, timeout, transmitDone, protocolTimeout, expire, hp, hx, hn, ht,
    h1, h2, h3, ProtoState.toInt, sendData, hto, hb, setRadioListen, setRadioTransmit,
    startTransmit, setProtocolTimeout, setTimeout, hr0, setIdle_spec, evalState_spec,
    contending, hbase', incBackoff_eq, dataTransmissions_append, completions_append]
  refine ⟨⟨rfl, rfl, rfl, rfl, hwr, ?_⟩, ?_, ?_⟩
  · simp [hw, hww]
  · simp [dataTransmissions, dataFrame]
  · simp [completions]

theorem attempt_final (cfg : Config) (e : Env × Env × Env) (s : State) (tx : Packet) (w : Int)
    (hto : tx.local_to ≠ cfg.nodeId) (hb : tx.local_to ≠ cfg.BROADCAST)
    (he : Silent e)
    (hs : Attempting tx 0 w s) :
    ∃ s', run cfg (attempt e) s = some s' ∧
      s'.tx_msg = none ∧ s'.data_contend_time = w ∧
      s'.proto_state = PROTO_STATE_WFACK ∧
      dataTransmissions s'.trace = dataTransmissions s.trace ++ [dataFrame cfg tx] ∧
      completions s'.trace = completions s.trace ++ [{ tx with kind := TX_FAILED }] ∧
      s'.trace.getLast? = some (Effect.txPacketDone { tx with kind := TX_FAILED }) ∧
      s'.stat_tx_drop = s.stat_tx_drop + 1 := by
  obtain ⟨hp, hx, hn, ht, hrt, hw⟩ := hs
  obtain ⟨h1, h2, h3⟩ := he
  simp [attempt, run, step, timeout, transmitDone, protocolTimeout, expire, hp, hx, hn, ht,
    h1, h2, h3, ProtoState.toInt, sendData, hto, hb, setRadioListen, setRadioTransmit,
    startTransmit, setProtocolTimeout, setTimeout, hrt, txPacketDone,
    dataTransmissions_append, completions_append]
  exact ⟨hw, by simp [dataTransmissions, dataFrame], by simp [completions]⟩

theorem attempts_append (l1 l2 : List (Env × Env × Env)) :
    attempts (l1 ++ l2) = attempts l1 ++ attempts l2 := by
  induction l1 with
  | nil => rfl
  | cons e l ih => simp [attempts, ih]

theorem retries_run (cfg : Config) (tx : Packet)
    (hto : tx.local_to ≠ cfg.nodeId) (hb : tx.local_to ≠ cfg.BROADCAST)
    (hbase : 5 ≤ cfg.DATA_CONTEND_TIME)
    (hmax : cfg.DATA_CONTEND_TIME ≤ cfg.MAX_DATA_CONTEND_TIME)
    (hm : cfg.MAX_DATA_CONTEND_TIME < 1073741824) :
    ∀ (envs : List (Env × Env × Env)) (s : State) (r j : Nat),
      (∀ e ∈ envs, Silent e) → r + envs.length < 2147483648 →
      Attempting tx (r + envs.length : Nat)
        (min (cfg.DATA_CONTEND_TIME * 2 ^ j) cfg.MAX_DATA_CONTEND_TIME) s →
      ∃ s', run cfg (attempts envs) s = some s' ∧
        Attempting tx r
          (min (cfg.DATA_CONTEND_TIME * 2 ^ (j + envs.length)) cfg.MAX_DATA_CONTEND_TIME) s' ∧
        dataTransmissions s'.trace
          = dataTransmissions s.trace ++ List.replicate envs.length (dataFrame cfg tx) ∧
        completions s'.trace = completions s.trace ∧
        s'.stat_tx_drop = s.stat_tx_drop := by
  intro envs
  induction envs with
  | nil =>
    intro s r j _ _ hs
    exact ⟨s, rfl, by simpa using hs, by simp, rfl, rfl⟩
  | cons e rest ih =>
    intro s r j hq hlen hs
    have hx : 0 ≤ cfg.DATA_CONTEND_TIME * 2 ^ j := by positivity
    have hM : 0 ≤ cfg.MAX_DATA_CONTEND_TIME := by omega
    simp only [List.length_cons] at hlen hs
    obtain ⟨s1, hrun1, hs1, hd1, hc1, hdrop1⟩ :=
      attempt_retry cfg e s tx (r + rest.length) _ hto hb hbase
        (hq e (List.mem_cons_self _ _)) (by omega) (le_min hx hM) (min_le_right _ _) hm
        (by simpa [Nat.add_assoc] using hs)
    rw [double_min _ _ hM,
      show cfg.DATA_CONTEND_TIME * 2 ^ j * 2 = cfg.DATA_CONTEND_TIME * 2 ^ (j + 1) by ring]
      at hs1
    obtain ⟨s2, hrun2, hs2, hd2, hc2, hdrop2⟩ :=
      ih s1 r (j + 1) (fun e' he' => hq e' (List.mem_cons_of_mem _ he')) (by omega) hs1
    refine ⟨s2, ?_, ?_, ?_, ?_, ?_⟩
    · simp [attempts, run_append, hrun1, hrun2]
    · rw [List.length_cons, show j + (rest.length + 1) = j + 1 + rest.length by omega]
      exact hs2
    · rw [hd2, hd1, List.length_cons, List.replicate_succ, List.append_assoc]
      rfl
    · rw [hc2, hc1]
    · rw [hdrop2, hdrop1]

theorem txPacket_accept (cfg : Config) (env : Env) (tx : Packet) (pr ack : Int)
    (hto : tx.local_to ≠ cfg.nodeId) (hbase : 5 ≤ cfg.DATA_CONTEND_TIME)
    (hr : env.receiving = false) :
    ∃ s0, txPacket cfg env tx (initialise cfg pr ack) = some s0 ∧
      Attempting tx cfg.maxPacketRetries cfg.DATA_CONTEND_TIME s0 ∧
      dataTransmissions s0.trace = [] ∧ completions s0.trace = [] ∧ s0.stat_tx_drop = 0 := by
  have hbase' : ¬ cfg.DATA_CONTEND_TIME < 5 := not_lt.mpr hbase
  simp [txPacket, hto, initialise, evalState_spec, hr, hbase', contending, setRadioListen,
    setProtocolTimeout, setTimeout, dataTransmissions, completions]
  exact ⟨rfl, rfl, rfl, rfl, rfl, rfl⟩

/-- C4: for every retry maximum `R` (with `5 ≤ base ≤ max < 2^30`), a unicast
packet accepted by `txPacket` in the initial state and followed by `R + 1`
silent attempts (contention expiry with a channel sample not above 0.5,
transmit completion, ack-wait expiry; no reception in progress) is handed to
the radio by `sendData` exactly `R + 1` times; the run ends with the single
completion of the packet, with `TX_FAILED`, the drop counter at one and
`tx_msg` released; and after the `i`-th ack-wait timeout (`1 ≤ i ≤ R`) the
backoff window is `min (base * 2^i) max`. -/
theorem unacknowledged_send (cfg : Config) (env0 : Env) (tx : Packet) (pr ack : Int)
    (envs : List (Env × Env × Env)) (R : Nat)
    (hR : cfg.maxPacketRetries = R) (hR' : R + 1 < 2147483648)
    (hbase : 5 ≤ cfg.DATA_CONTEND_TIME)
    (hmax : cfg.DATA_CONTEND_TIME ≤ cfg.MAX_DATA_CONTEND_TIME)
    (hm : cfg.MAX_DATA_CONTEND_TIME < 1073741824)
    (hto : tx.local_to ≠ cfg.nodeId) (hb : tx.local_to ≠ cfg.BROADCAST)
    (hr0 : env0.receiving = false)
    (hlen : envs.length = R + 1) (hq : ∀ e ∈ envs, Silent e) :
    ∃ s0 sF, txPacket cfg env0 tx (initialise cfg pr ack) = some s0 ∧
      run cfg (attempts envs) s0 = some sF ∧
      dataTransmissions sF.trace = List.replicate (R + 1) (dataFrame cfg tx) ∧
      completions sF.trace = [{ tx with kind := TX_FAILED }] ∧
      sF.trace.getLast? = some (Effect.txPacketDone { tx with kind := TX_FAILED }) ∧
      sF.stat_tx_drop = 1 ∧ sF.tx_msg = none ∧
      ∀ i : Nat, 1 ≤ i → i ≤ R →
        ∃ si, run cfg (attempts (envs.take i)) s0 = some si ∧
          si.data_contend_time
            = min (cfg.DATA_CONTEND_TIME * 2 ^ i) cfg.MAX_DATA_CONTEND_TIME := by
  obtain ⟨s0, hacc, hs0, hd0, hc0, hdrop0⟩ := txPacket_accept cfg env0 tx pr ack hto hbase hr0
  rw [hR] at hs0
  have hstart : ∀ i : Nat, i ≤ R →
      Attempting tx ((R - i) + (envs.take i).length : Nat)
        (min (cfg.DATA_CONTEND_TIME * 2 ^ 0) cfg.MAX_DATA_CONTEND_TIME) s0 := by
    intro i hi
    have : (R - i) + (envs.take i).length = R := by
      rw [List.length_take, hlen]; omega
    rw [this, pow_zero, mul_one, min_eq_left hmax]
    exact hs0
  have hprefix : ∀ i : Nat, i ≤ R →
      ∃ si, run cfg (attempts (envs.take i)) s0 = some si ∧
        Attempting tx (R - i : Nat)
          (min (cfg.DATA_CONTEND_TIME * 2 ^ i) cfg.MAX_DATA_CONTEND_TIME) si ∧
        dataTransmissions si.trace = List.replicate i (dataFrame cfg tx) ∧
        completions si.trace = [] ∧ si.stat_tx_drop = 0 := by
    intro i hi
    have hl : (envs.take i).length = i := by rw [List.length_take, hlen]; omega
    obtain ⟨si, hrun, hsi, hd, hc, hdrop⟩ :=
      retries_run cfg tx hto hb hbase hmax hm (envs.take i) s0 (R - i) 0
        (fun e he => hq e (List.mem_of_mem_take he)) (by rw [hl]; omega) (hstart i hi)
    refine ⟨si, hrun, ?_, ?_, ?_, ?_⟩
    · simpa [hl] using hsi
    · rw [hd, hd0, hl]; rfl
    · rw [hc, hc0]
    · rw [hdrop, hdrop0]
  obtain ⟨sR, hrunR, hsR, hdR, hcR, hdropR⟩ := hprefix R (le_refl R)
  obtain ⟨last, hlast⟩ : ∃ last, envs.drop R = [last] := by
    apply List.length_eq_one.mp
    rw [List.length_drop, hlen]; omega
  have hsplit : envs = envs.take R ++ [last] := by
    rw [← hlast, List.take_append_drop]
  have hqlast : Silent last := by
    apply hq; rw [hsplit]; simp
  rw [Nat.sub_self] at hsR
  obtain ⟨sF, hrunF, htx, _, _, hdF, hcF, hlastF, hdropF⟩ :=
    attempt_final cfg last sR tx _ hto hb hqlast (by simpa using hsR)
  refine ⟨s0, sF, hacc, ?_, ?_, ?_, hlastF, ?_, htx, ?_⟩
  · rw [hsplit, attempts_append, run_append, hrunR]
    simpa [attempts] using hrunF
  · rw [hdF, hdR, List.replicate_succ']
  · rw [hcF, hcR]; rfl
  · rw [hdropF, hdropR]
  · intro i _ hi
    obtain ⟨si, hrun, hsi, _⟩ := hprefix i hi
    exact ⟨si, hrun, hsi.window⟩

/-- Witness of `unacknowledged_send`: two retries, base window 10, a packet for
node 5: three DATA frames, then `TX_FAILED`. -/
theorem unacknowledged_send_witness :
    ∃ s0 sF, txPacket sampleConfig (quietAt 0) samplePacket (initialise sampleConfig 0 0)
        = some s0 ∧
      run sampleConfig (attempts sampleEnvs) s0 = some sF ∧
      dataTransmissions sF.trace = List.replicate (2 + 1) (dataFrame sampleConfig samplePacket) ∧
      completions sF.trace = [{ samplePacket with kind := TX_FAILED }] ∧
      sF.trace.getLast? = some (Effect.txPacketDone { samplePacket with kind := TX_FAILED }) ∧
      sF.stat_tx_drop = 1 ∧ sF.tx_msg = none ∧
      ∀ i : Nat, 1 ≤ i → i ≤ 2 →
        ∃ si, run sampleConfig (attempts (sampleEnvs.take i)) s0 = some si ∧
          si.data_contend_time
            = min (sampleConfig.DATA_CONTEND_TIME * 2 ^ i) sampleConfig.MAX_DATA_CONTEND_TIME :=
  unacknowledged_send sampleConfig (quietAt 0) samplePacket 0 0 sampleEnvs 2 rfl (by decide)
    (by decide) (by decide) (by decide) (by decide) (by decide) rfl rfl
    (by simp [sampleEnvs, Silent, quietAt])

/-! ## C5: the matching acknowledgement -/

/-- C5: in WaitingForAck with a held packet for `d`, `rxFrame` of an ACK addressed
to this node (whose id is not -1, as `receiveAck` asserts) and sent by `d`
returns with the machine Idle, `tx_msg` released, the window back at the base
and the protocol timer slot empty; what it issues is the cancellation of the
protocol timer, one `txPacketDone` of the packet with `TX_DONE`, and after that
only radio listen or sleep commands; the drop counter is unchanged. -/
theorem matching_ack (cfg : Config) (env : Env) (msg tx : Packet) (s : State)
    (hp : s.proto_state = PROTO_STATE_WFACK) (ht : s.tx_msg = some tx)
    (hk : msg.header_kind = KIND_ACK) (hto : msg.local_to = cfg.nodeId)
    (hfrom : msg.local_from = tx.local_to) (hid : cfg.nodeId ≠ -1) :
    ∃ s' tail, rxFrame cfg env msg s = some s' ∧
      s'.proto_state = PROTO_STATE_IDLE ∧
      s'.tx_msg = none ∧
      s'.data_contend_time = cfg.DATA_CONTEND_TIME ∧
      s'.proto_timer = none ∧
      s'.trace = s.trace ++
        [Effect.cancelTimeout TIMER_PROTOCOL, Effect.txPacketDone { tx with kind := TX_DONE }]
        ++ tail ∧
      (∀ e ∈ tail, e = Effect.setRadioListen ∨ e = Effect.setRadioSleep) ∧
      completions s'.trace = completions s.trace ++ [{ tx with kind := TX_DONE }] ∧
      s'.stat_tx_drop = s.stat_tx_drop ∧
      s'.stat_tx = s.stat_tx + 1 := by
  have hid' : ¬ msg.local_to = -1 := by rw [hto]; exact hid
  cases hr : env.receiving <;> cases hn : s.nav_state <;>
    simp [rxFrame, receiveAck, hp, ht, hk, hto, hfrom, hid, setIdle_spec, evalState_spec,
      cancelTimeout, decBackoff, txPacketDone, setRadioListen, setRadioSleep, hr, hn,
      completions_append, completions, KIND_ACK, KIND_DATA]

/-- Witness of `matching_ack`: node 1 waits for the ACK of node 5 and gets it. -/
theorem matching_ack_witness :
    ∃ s' tail, rxFrame sampleConfig (quietAt 30) sampleAck waitingState = some s' ∧
      s'.proto_state = PROTO_STATE_IDLE ∧
      s'.tx_msg = none ∧
      s'.data_contend_time = sampleConfig.DATA_CONTEND_TIME ∧
      s'.proto_timer = none ∧
      s'.trace = waitingState.trace ++
        [Effect.cancelTimeout TIMER_PROTOCOL,
         Effect.txPacketDone { samplePacket with kind := TX_DONE }]
        ++ tail ∧
      (∀ e ∈ tail, e = Effect.setRadioListen ∨ e = Effect.setRadioSleep) ∧
      completions s'.trace
        = completions waitingState.trace ++ [{ samplePacket with kind := TX_DONE }] ∧
      s'.stat_tx_drop = waitingState.stat_tx_drop ∧
      s'.stat_tx = waitingState.stat_tx + 1 :=
  matching_ack sampleConfig (quietAt 30) sampleAck samplePacket waitingState rfl rfl rfl rfl rfl
    (by decide)

/-! ## C6: a broadcast send -/

/-- C6: with a held packet for BROADCAST (not this node's own id, as `sendData`
asserts), `sendData` returns in SendingData with pending next state Idle, and
the `transmitDone` that follows leaves the machine Idle with `tx_msg` released
and the radio listening, having issued exactly: transmit mode, the DATA frame,
`txPacketDone` of the packet with `TX_DONE`, listen mode.  No timer request is
issued and the protocol timer slot is as before. -/
theorem broadcast_send (cfg : Config) (env : Env) (tx : Packet) (s : State)
    (ht : s.tx_msg = some tx) (hb : tx.local_to = cfg.BROADCAST)
    (hself : tx.local_to ≠ cfg.nodeId) :
    ∃ s1, sendData cfg s = some s1 ∧
      s1.proto_state = PROTO_STATE_SEND_DATA ∧
      s1.proto_next_state = PROTO_STATE_IDLE ∧
      transmitDone cfg env s1 = some
        { s with
          proto_state := PROTO_STATE_IDLE
          proto_next_state := PROTO_STATE_IDLE
          tx_msg := none
          stat_tx := s.stat_tx + 1
          radio := LISTEN
          trace := s.trace ++
            [Effect.setRadioTransmit, Effect.startTransmit (dataFrame cfg tx),
             Effect.txPacketDone { tx with kind := TX_DONE }, Effect.setRadioListen] } := by
  simp [sendData, ht, hb, hself, transmitDone, setRadioTransmit, startTransmit, txPacketDone,
    setRadioListen, dataFrame, hb ▸ hself]

/-- Witness of `broadcast_send`: the sample node holds a broadcast packet. -/
theorem broadcast_send_witness :
    ∃ s1, sendData sampleConfig heldBroadcast = some s1 ∧
      s1.proto_state = PROTO_STATE_SEND_DATA ∧
      s1.proto_next_state = PROTO_STATE_IDLE ∧
      transmitDone sampleConfig (quietAt 20) s1 = some
        { heldBroadcast with
          proto_state := PROTO_STATE_IDLE
          proto_next_state := PROTO_STATE_IDLE
          tx_msg := none
          stat_tx := heldBroadcast.stat_tx + 1
          radio := LISTEN
          trace := heldBroadcast.trace ++
            [Effect.setRadioTransmit, Effect.startTransmit (dataFrame sampleConfig broadcastPacket),
             Effect.txPacketDone { broadcastPacket with kind := TX_DONE },
             Effect.setRadioListen] } :=
  broadcast_send sampleConfig (quietAt 20) broadcastPacket heldBroadcast rfl rfl (by decide)

/-! ## C7: two NAV extensions -/

theorem evalState_nav (cfg : Config) (env : Env) (s s' : State)
    (h : evalState cfg env s = some s') :
    s'.nav_state = s.nav_state ∧ s'.nav_end_time = s.nav_end_time := by
  rw [evalState_spec] at h
  split at h
  · split at h
    · split at h
      · split at h
        · cases h
        · cases h; simp [contending, setProtocolTimeout, setTimeout, setRadioListen]
      · cases h; simp [setRadioListen]
    · cases h; simp [setRadioSleep]
  · cases h; simp

/-- C7, as stated, fails.  At time 65530, `updateNav(10)` from a Clear NAV gives the
deadline 4, not 65540, and `updateNav(5)` at the same time leaves it at 4.  At
time 100, `updateNav(10)` and then, with no NAV timeout in between,
`updateNav(5)` at time 120 leaves the deadline at 110, not 125. -/
theorem nav_two_updates_fail :
    ((updateNav (quietAt 65530) 10 (navSample NAV_STATE_CLEAR 0)).bind
        (updateNav (quietAt (65530 + 0)) 5)).map (·.nav_end_time) = some 4 ∧
      (4 : Nat) ≠ max (65530 + 10) (65530 + 0 + 5) ∧
      ((updateNav (quietAt 100) 10 (navSample NAV_STATE_CLEAR 0)).bind
        (updateNav (quietAt (100 + 20)) 5)).map (·.nav_end_time) = some 110 ∧
      (110 : Nat) ≠ max (100 + 10) (100 + 20 + 5) := by
  decide

theorem evalState_total (cfg : Config) (env : Env) (s : State)
    (hbase : 5 ≤ cfg.DATA_CONTEND_TIME) : ∃ s', evalState cfg env s = some s' := by
  rw [evalState_spec]
  have hbase' : ¬ cfg.DATA_CONTEND_TIME < 5 := not_lt.mpr hbase
  split
  · split
    · split
      · simp [hbase']
      · exact ⟨_, rfl⟩
    · exact ⟨_, rfl⟩
  · exact ⟨_, rfl⟩

/-- C7, amended: when neither `now + a` nor `now + D + b` reaches 2^16, `updateNav a`
at time `now` from a Clear NAV sets the deadline to `now + a`, and `updateNav b`
at time `now + D` then leaves the deadline equal to
`max (now + a) (now + D + b)` in both of these cases: no NAV timeout ran in
between and `D ≤ a`; or the NAV timeout ran in between and `a ≤ D + b` (so in
particular whenever `a ≤ D`).  The constant `5 ≤ DATA_CONTEND_TIME` is what
lets the NAV timeout handler return. -/
theorem nav_two_updates (cfg : Config) (e1 e2 eT : Env) (now D a b : Nat) (s : State)
    (h1 : e1.now = now) (h2 : e2.now = now + D)
    (hc : s.nav_state = NAV_STATE_CLEAR) (ha : 0 < a) (hb : 0 < b)
    (hwa : now + a < USHORT) (hwb : now + D + b < USHORT)
    (hbase : 5 ≤ cfg.DATA_CONTEND_TIME) :
    ∃ s1, updateNav e1 a s = some s1 ∧ s1.nav_end_time = now + a ∧
      (D ≤ a → ∃ s2, updateNav e2 b s1 = some s2 ∧
        s2.nav_end_time = max (now + a) (now + D + b)) ∧
      (a ≤ D + b → ∃ s1' s2, navTimeout cfg eT s1 = some s1' ∧ updateNav e2 b s1' = some s2 ∧
        s2.nav_end_time = max (now + a) (now + D + b)) := by
  simp only [USHORT] at hwa hwb
  have ha' : a % 65536 = a := Nat.mod_eq_of_lt (by omega)
  have hb' : b % 65536 = b := Nat.mod_eq_of_lt (by omega)
  have hn1 : now % 65536 = now := Nat.mod_eq_of_lt (by omega)
  have hn2 : (now + D) % 65536 = now + D := Nat.mod_eq_of_lt (by omega)
  have hd1 : (a + now) % 65536 = now + a := by rw [Nat.mod_eq_of_lt (by omega)]; omega
  have hd2 : (b + (now + D)) % 65536 = now + D + b := by rw [Nat.mod_eq_of_lt (by omega)]; omega
  have ha0 : a ≠ 0 := by omega
  have hb0 : b ≠ 0 := by omega
  obtain ⟨s1, hs1, hdl, hbusy⟩ : ∃ s1, updateNav e1 a s = some s1 ∧
      s1.nav_end_time = now + a ∧ s1.nav_state = NAV_STATE_BUSY :=
    ⟨_, by simp [updateNav, USHORT, h1, ha', ha0, hc, hn1]; rfl, by simp [hd1], rfl⟩
  refine ⟨s1, hs1, hdl, ?_, ?_⟩
  · intro hDa
    simp only [updateNav, USHORT, h2, hb', hb0, hn2, if_false, hdl, hd2, hbusy]
    by_cases hlt : b > (now + a + 65536 - (now + D)) % 65536
    · simp [hlt]; omega
    · simp [hlt]; omega
  · intro hDb
    obtain ⟨s1', hs1'⟩ := evalState_total cfg eT { s1 with nav_state := NAV_STATE_CLEAR } hbase
    obtain ⟨hnav, hend⟩ := evalState_nav cfg eT _ _ hs1'
    simp only at hnav hend
    refine ⟨s1', _, hs1', by simp [updateNav, USHORT, h2, hb', hb0, hnav]; rfl, ?_⟩
    simp [hn2, hd2]
    omega

/-- Witness of `nav_two_updates`: 10 units reserved at time 100, then 20 units at
time 110, with and without the NAV timeout at 110. -/
theorem nav_two_updates_witness :
    ∃ s1, updateNav (quietAt 100) 10 (navSample NAV_STATE_CLEAR 0) = some s1 ∧
      s1.nav_end_time = 100 + 10 ∧
      (∃ s2, updateNav (quietAt 110) 20 s1 = some s2 ∧
        s2.nav_end_time = max (100 + 10) (100 + 10 + 20)) ∧
      (∃ s1' s2, navTimeout sampleConfig (quietAt 110) s1 = some s1' ∧
        updateNav (quietAt 110) 20 s1' = some s2 ∧
        s2.nav_end_time = max (100 + 10) (100 + 10 + 20)) :=
  let ⟨s1, h1, h2, hA, hB⟩ :=
    nav_two_updates sampleConfig (quietAt 100) (quietAt 110) (quietAt 110) 100 10 10 20
      (navSample NAV_STATE_CLEAR 0) rfl rfl rfl (by decide) (by decide) (by decide) (by decide)
      (by decide)
  ⟨s1, h1, h2, hA (by decide), hB (by decide)⟩

/-! ## C8: WaitingForAck and the held transmission -/

theorem reachable_run (cfg : Config) (evs : List (Env × Event)) :
    ∀ s s', Reachable cfg s → run cfg evs s = some s' → Reachable cfg s' := by
  induction evs with
  | nil => intro s s' hs h; simp [run] at h; exact h ▸ hs
  | cons a rest ih =>
    intro s s' hs h
    obtain ⟨env, ev⟩ := a
    simp only [run] at h
    cases h1 : step cfg env ev s with
    | none => simp [h1] at h
    | some s1 =>
      rw [h1] at h
      exact ih s1 s' (Reachable.step env ev s s1 hs h1) h

theorem exhaustedRun_result :
    ∃ s, run noRetryConfig exhaustedRun (initialise noRetryConfig 0 0) = some s ∧
      s.proto_state = PROTO_STATE_WFACK ∧ s.tx_msg = none ∧ s.proto_timer = none := by
  simp [exhaustedRun, attempt, run, step, timeout, transmitDone, protocolTimeout, expire,
    txPacket, initialise, noRetryConfig, sampleConfig, samplePacket, quietAt,
    ProtoState.toInt, sendData, setRadioListen, setRadioTransmit,
    startTransmit, setProtocolTimeout, setTimeout, txPacketDone, evalState_spec, contending,
    wrapInt]

/-- C8 fails on the code: with a retry maximum of 0, the run `txPacket` of a unicast
packet, contention expiry, `transmitDone`, ack-wait expiry ends, without any
abort, in a reachable state whose protocol state is still WaitingForAck while
`tx_msg` is null (and no timer is armed): the exhausted branch of
`protocolTimeout` releases the packet without leaving WaitingForAck. -/
theorem wfack_without_transmission :
    ∃ s, run noRetryConfig exhaustedRun (initialise noRetryConfig 0 0) = some s ∧
      Reachable noRetryConfig s ∧
      s.proto_state = PROTO_STATE_WFACK ∧ s.tx_msg = none ∧ s.proto_timer = none := by
  obtain ⟨s, hrun, hp, ht, hq⟩ := exhaustedRun_result
  exact ⟨s, hrun, reachable_run noRetryConfig exhaustedRun _ s (Reachable.init 0 0) hrun,
    hp, ht, hq⟩

/-! ## C9: Contending and the pending next state -/

theorem pendingOk_evalState (cfg : Config) (env : Env) (s s' : State)
    (h : evalState cfg env s = some s') (hi : PendingOk s) : PendingOk s' := by
  rcases evalState_cases cfg env s s' h with h | h | h | h <;> subst h
  · exact hi
  · exact hi
  · exact hi
  · simp [PendingOk, contending, setProtocolTimeout, setTimeout, setRadioListen]

theorem pendingOk_setIdle (cfg : Config) (env : Env) (s s' : State)
    (h : setIdle cfg env s = some s') (hi : s.proto_next_state ≠ PROTO_STATE_CONTEND) :
    PendingOk s' := by
  rw [setIdle_spec] at h
  exact pendingOk_evalState cfg env _ s' h ⟨hi, by simp⟩

theorem pendingOk_startContending (cfg : Config) (env : Env) (time : Int) (s s' : State)
    (h : startContending cfg env time s = some s')
    (hx : s.proto_next_state = PROTO_STATE_SEND_DATA ∨
      s.proto_next_state = PROTO_STATE_SEND_ACK) : PendingOk s' := by
  obtain ⟨_, _, h | h⟩ := startContending_cases cfg env time s s' h
  · rcases h with ⟨_, h | h⟩ <;> subst h <;> simp [PendingOk, setRadioSleep]
  · obtain ⟨_, h⟩ := h
    subst h
    rcases hx with hx | hx <;>
      simp [PendingOk, contending, setProtocolTimeout, setTimeout, setRadioListen, hx]


theorem pendingOk_txPacket (cfg : Config) (env : Env) (msg : Packet) (s s' : State)
    (h : txPacket cfg env msg s = some s') (hi : PendingOk s) : PendingOk s' := by
  unfold txPacket at h
  split at h
  · cases h
  split at h
  · cases h; exact hi
  · rename_i hnone
    cases he : evalState cfg env { s with tx_msg := some msg } with
    | none => simp [he] at h
    | some s1 =>
      rw [he] at h
      cases h
      exact pendingOk_evalState cfg env _ s1 he hi

theorem pendingOk_updateNav (env : Env) (t : Nat) (s s' : State)
    (h : updateNav env t s = some s') (hi : PendingOk s) : PendingOk s' := by
  unfold updateNav at h
  simp only at h
  split at h
  · cases h
  split at h
  · cases h; exact hi
  · cases h; exact hi

theorem pendingOk_receiveAck (cfg : Config) (env : Env) (msg : Packet) (s s' : State)
    (h : receiveAck cfg env msg s = some s') (hi : PendingOk s) : PendingOk s' := by
  unfold receiveAck at h
  split at h
  · cases h
  split at h
  · split at h
    · cases h; exact hi
    split at h
    · cases h
    split at h
    · cases h; exact hi
    · exact pendingOk_setIdle cfg env _ s' h hi.1
  · cases h; exact hi

theorem pendingOk_receiveData (cfg : Config) (env : Env) (msg : Packet) (s s' : State)
    (h : receiveData cfg env msg s = some s') : PendingOk s' := by
  unfold receiveData at h
  split at h
  · exact pendingOk_startContending cfg env _ _ s' h (Or.inr rfl)
  split at h
  · cases h; simp [PendingOk, rxPacket]
  · exact pendingOk_updateNav env _ _ s' h (by simp [PendingOk])

theorem pendingOk_rxFrame (cfg : Config) (env : Env) (msg : Packet) (s s' : State)
    (h : rxFrame cfg env msg s = some s') (hi : PendingOk s) : PendingOk s' := by
  unfold rxFrame at h
  simp only at h
  have h0 : PendingOk
      (if s.proto_state = PROTO_STATE_WFACK ∧
          (msg.header_kind ≠ KIND_ACK ∨ msg.local_to ≠ cfg.nodeId) then
        { cancelTimeout TIMER_PROTOCOL (incBackoff cfg s) with proto_state := PROTO_STATE_IDLE }
      else s) := by
    split
    · exact ⟨by simpa [cancelTimeout, incBackoff_eq] using hi.1, by simp⟩
    · exact hi
  generalize (if s.proto_state = PROTO_STATE_WFACK ∧
          (msg.header_kind ≠ KIND_ACK ∨ msg.local_to ≠ cfg.nodeId) then
        { cancelTimeout TIMER_PROTOCOL (incBackoff cfg s) with proto_state := PROTO_STATE_IDLE }
      else s) = s0 at h h0
  split at h
  · cases hr : receiveAck cfg env msg s0 with
    | none => simp [hr] at h
    | some s1 =>
      rw [hr] at h
      exact pendingOk_evalState cfg env s1 s' h (pendingOk_receiveAck cfg env msg s0 s1 hr h0)
  split at h
  · cases hr : receiveData cfg env msg s0 with
    | none => simp [hr] at h
    | some s1 =>
      rw [hr] at h
      exact pendingOk_evalState cfg env s1 s' h (pendingOk_receiveData cfg env msg s0 s1 hr)
  · simp at h

theorem pendingOk_transmitDone (cfg : Config) (env : Env) (s s' : State)
    (h : transmitDone cfg env s = some s') (hi : PendingOk s) : PendingOk s' := by
  unfold transmitDone at h
  split at h
  · exact pendingOk_setIdle cfg env s s' h hi.1
  · simp only at h
    split at h
    · cases h
    · cases h
      have := hi.1
      constructor
      · split <;> split <;>
          simpa [setRadioListen, txPacketDone, setProtocolTimeout, setTimeout] using this
      · intro hc
        exfalso
        apply this
        revert hc
        split <;> split <;>
          simp [setRadioListen, txPacketDone, setProtocolTimeout, setTimeout]
  · cases h


theorem pendingOk_sendAck (cfg : Config) (s s' : State)
    (h : sendAck cfg s = some s') (hi : s.proto_next_state ≠ PROTO_STATE_CONTEND) :
    PendingOk s' := by
  unfold sendAck at h
  simp only at h
  split at h
  · cases h
  · cases h
    simpa [PendingOk, startTransmit, setRadioTransmit] using hi

theorem pendingOk_sendData (cfg : Config) (s s' : State)
    (h : sendData cfg s = some s') : PendingOk s' := by
  unfold sendData at h
  simp only at h
  split at h
  · cases h
  split at h
  · cases h
  · cases h
    split <;> simp [PendingOk, startTransmit, setRadioTransmit]

theorem pendingOk_protocolTimeout (cfg : Config) (env : Env) (s s' : State)
    (h : protocolTimeout cfg env s = some s') (hi : PendingOk s) : PendingOk s' := by
  unfold protocolTimeout at h
  split at h
  · split at h
    · cases h
    split at h
    · cases h
    split at h
    · cases h
    simp only at h
    split at h
    · exact pendingOk_setIdle cfg env _ s' h (by simpa [setRadioListen] using hi.1)
    · split at h
      · exact pendingOk_sendAck cfg _ s' h (by simp)
      · exact pendingOk_sendData cfg _ s' h
      · cases h
  · simp only at h
    split at h
    · split at h
      · cases h
      · cases h
        rename_i hw _ _ _
        exact ⟨by simpa [txPacketDone] using hi.1, by simpa [txPacketDone] using hi.2⟩
    · exact pendingOk_setIdle cfg env _ s' h (by simpa [incBackoff_eq] using hi.1)
  · cases h

theorem pendingOk_step (cfg : Config) (env : Env) (ev : Event) (s s' : State)
    (h : step cfg env ev s = some s') (hi : PendingOk s) : PendingOk s' := by
  cases ev with
  | txPacket msg => exact pendingOk_txPacket cfg env msg s s' h hi
  | rxFrame msg => exact pendingOk_rxFrame cfg env msg s s' h hi
  | rxStarted =>
    simp only [step, Option.some.injEq] at h
    subst h
    unfold rxStarted
    split
    · simp [PendingOk, cancelTimeout]
    · exact hi
  | rxFailed => exact pendingOk_evalState cfg env s s' h hi
  | transmitDone => exact pendingOk_transmitDone cfg env s s' h hi
  | timeout which =>
    cases which with
    | TIMER_PROTOCOL => exact pendingOk_protocolTimeout cfg env _ s' h hi
    | TIMER_NAV => exact pendingOk_evalState cfg env _ s' h hi
    | UNKNOWN => simp [step, timeout] at h

theorem pendingOk_reachable (cfg : Config) (s : State) (hs : Reachable cfg s) :
    PendingOk s := by
  induction hs with
  | init pr ack => simp [PendingOk, initialise, setRadioListen]
  | step env ev s s' _ hstep ih => exact pendingOk_step cfg env ev s s' hstep ih

/-- C9: in every state reachable from the initial state by events none of which
aborted, if the protocol state is Contending then the pending next state is
not None: it is SendData or SendAck. -/
theorem contending_has_pending (cfg : Config) (s : State) (hs : Reachable cfg s)
    (hc : s.proto_state = PROTO_STATE_CONTEND) :
    s.proto_next_state ≠ PROTO_STATE_NONE ∧
      (s.proto_next_state = PROTO_STATE_SEND_DATA ∨
        s.proto_next_state = PROTO_STATE_SEND_ACK) := by
  have := (pendingOk_reachable cfg s hs).2 hc
  refine ⟨?_, this⟩
  rcases this with h | h <;> simp [h]

theorem acceptedState_reachable : Reachable sampleConfig acceptedState := by
  refine Reachable.step (quietAt 0) (Event.txPacket samplePacket) sampleInit _
    (Reachable.init 0 0) ?_
  simp [step, txPacket, evalState_spec, sampleInit, initialise, sampleConfig, samplePacket,
    quietAt, setRadioListen, acceptedState, contendingState, heldState, contending,
    setProtocolTimeout, setTimeout]

/-- Witness of `contending_has_pending`: the sample node after it accepted a packet. -/
theorem contending_has_pending_witness :
    Reachable sampleConfig acceptedState ∧
      acceptedState.proto_state = PROTO_STATE_CONTEND ∧
      acceptedState.proto_next_state ≠ PROTO_STATE_NONE ∧
      (acceptedState.proto_next_state = PROTO_STATE_SEND_DATA ∨
        acceptedState.proto_next_state = PROTO_STATE_SEND_ACK) :=
  ⟨acceptedState_reachable, rfl,
    contending_has_pending sampleConfig acceptedState acceptedState_reachable rfl⟩

/-! ## C10: a reception starts -/

/-- C10: in Contending, `rxStarted` cancels the protocol timer and sets the
protocol state to Idle and the pending next state to None, and changes nothing
else (no transmission is started; `tx_msg`, retry counter, window and NAV are
as before); in every other protocol state `rxStarted` changes nothing. -/
theorem rxStarted_effect (s : State) :
    (s.proto_state = PROTO_STATE_CONTEND →
      rxStarted s =
        { s with
          proto_state := PROTO_STATE_IDLE
          proto_next_state := PROTO_STATE_NONE
          proto_timer := none
          trace := s.trace ++ [Effect.cancelTimeout TIMER_PROTOCOL] }) ∧
    (s.proto_state ≠ PROTO_STATE_CONTEND → rxStarted s = s) := by
  constructor
  · intro h; simp [rxStarted, h, cancelTimeout]
  · intro h; simp [rxStarted, h]

/-- Witness of `rxStarted_effect`: the sample node while contending, and while idle. -/
theorem rxStarted_effect_witness :
    rxStarted contendingState =
        { contendingState with
          proto_state := PROTO_STATE_IDLE
          proto_next_state := PROTO_STATE_NONE
          proto_timer := none
          trace := contendingState.trace ++ [Effect.cancelTimeout TIMER_PROTOCOL] } ∧
      rxStarted sampleInit = sampleInit :=
  ⟨(rxStarted_effect contendingState).1 rfl, (rxStarted_effect sampleInit).2 (by decide)⟩

/-! ## C11: a DATA frame for a third node -/

/-- C11, as stated, fails: the deadline is a 16-bit value.  A DATA frame for node 7
overheard by node 1 at time 65530 with an ack window of 15 leaves the deadline
at 9, not at 65545. -/
theorem overheard_data_wraps :
    ∃ s', rxFrame sampleConfig (quietAt 65530) overheardFrame sampleInit = some s' ∧
      s'.nav_end_time = 9 ∧ (9 : Nat) ≠ 65530 + sampleConfig.NAV_ACK := by
  simp [rxFrame, receiveData, updateNav, evalState_spec, sampleInit, initialise, sampleConfig,
    overheardFrame, quietAt, setRadioListen, setRadioSleep, setNavTimeout, setTimeout, USHORT,
    KIND_ACK, KIND_DATA]

/-- C11, amended: with a Clear NAV and `0 < NAV_ACK < 2^16`, `rxFrame` of a DATA
frame whose destination is neither this node nor BROADCAST returns with the
machine Idle, the NAV Busy, the NAV timer armed for exactly `NAV_ACK`, and the
deadline at `(now + NAV_ACK) mod 2^16`, which is `now + NAV_ACK` whenever that
sum is below 2^16.  What it issues is the cancellation of the protocol timer
if the machine was in WaitingForAck, the NAV timer request, and, when no
reception is in progress, the radio sleep command: nothing is handed upward,
no contention is started and `tx_msg` stays as it was. -/
theorem overheard_data (cfg : Config) (env : Env) (msg : Packet) (s : State)
    (hn : s.nav_state = NAV_STATE_CLEAR) (hk : msg.header_kind = KIND_DATA)
    (hme : msg.local_to ≠ cfg.nodeId) (hbc : msg.local_to ≠ cfg.BROADCAST)
    (hnav0 : 0 < cfg.NAV_ACK) (hnav1 : cfg.NAV_ACK < USHORT) :
    ∃ s', rxFrame cfg env msg s = some s' ∧
      s'.proto_state = PROTO_STATE_IDLE ∧
      s'.nav_state = NAV_STATE_BUSY ∧
      s'.nav_end_time = (cfg.NAV_ACK + env.now % USHORT) % USHORT ∧
      (env.now + cfg.NAV_ACK < USHORT → s'.nav_end_time = env.now + cfg.NAV_ACK) ∧
      s'.nav_timer = some (cfg.NAV_ACK : Int) ∧
      s'.tx_msg = s.tx_msg ∧
      s'.trace = s.trace ++
        (if s.proto_state = PROTO_STATE_WFACK then [Effect.cancelTimeout TIMER_PROTOCOL]
          else []) ++
        [Effect.setTimeout (cfg.NAV_ACK : Int) TIMER_NAV] ++
        (if env.receiving = false then [Effect.setRadioSleep] else []) ∧
      (env.receiving = false → s'.radio = SLEEP) := by
  have ht0 : cfg.NAV_ACK % USHORT = cfg.NAV_ACK := Nat.mod_eq_of_lt hnav1
  have hne : cfg.NAV_ACK ≠ 0 := by omega
  have hwrap : env.now + cfg.NAV_ACK < USHORT →
      (cfg.NAV_ACK + env.now) % USHORT = env.now + cfg.NAV_ACK := by
    intro h
    rw [Nat.mod_eq_of_lt (by omega)]
    omega
  cases hr : env.receiving <;> by_cases hw : s.proto_state = PROTO_STATE_WFACK <;>
    simp [rxFrame, receiveData, updateNav, evalState_spec, hn, hk, hme, hbc, ht0, hne, hr,
      hw, setRadioSleep, setNavTimeout, setTimeout, cancelTimeout, incBackoff_eq, KIND_DATA,
      KIND_ACK] <;>
    exact hwrap

/-- Witness of `overheard_data`: an ack window of 15 at time 100, while a packet
waits to be sent: the NAV is Busy until 115, the radio sleeps, the machine is
Idle and the packet is still held. -/
theorem overheard_data_witness :
    ∃ s', rxFrame sampleConfig (quietAt 100) overheardFrame heldState = some s' ∧
      s'.proto_state = PROTO_STATE_IDLE ∧ s'.nav_state = NAV_STATE_BUSY ∧
      s'.nav_end_time = 100 + 15 ∧ s'.tx_msg = some samplePacket ∧ s'.radio = SLEEP :=
  let ⟨s', h, hp, hb, _, hd, _, ht, _, hs⟩ :=
    overheard_data sampleConfig (quietAt 100) overheardFrame heldState rfl rfl (by decide)
      (by decide) (by decide) (by decide)
  ⟨s', h, hp, hb, hd (by decide), ht, hs rfl⟩

/-! ## C12: acknowledgements that are not the awaited one -/

/-- Outside the case where all three conditions hold, `receiveAck` returns the state
it was given, provided the frame passes the entry assertion and a machine in
WaitingForAck holds a packet. -/
theorem receiveAck_ignores (cfg : Config) (env : Env) (msg : Packet) (s : State)
    (hto : msg.local_to ≠ -1)
    (hheld : s.proto_state = PROTO_STATE_WFACK → msg.local_to = cfg.nodeId → s.tx_msg ≠ none)
    (hnot : ¬ (s.proto_state = PROTO_STATE_WFACK ∧ msg.local_to = cfg.nodeId ∧
      ∃ tx, s.tx_msg = some tx ∧ msg.local_from = tx.local_to)) :
    receiveAck cfg env msg s = some s := by
  unfold receiveAck
  simp only [hto, if_false]
  split
  · rename_i hme
    split
    · rfl
    · rename_i hw
      simp only [ne_eq, not_not] at hw
      cases htx : s.tx_msg with
      | none => exact absurd htx (hheld hw hme)
      | some tx =>
        simp only
        split
        · rfl
        · rename_i hfrom
          simp only [ne_eq, not_not] at hfrom
          exact absurd ⟨hw, hme, tx, htx, hfrom⟩ hnot
  · rfl

/-- C12 fails on the code: after the run of C8 (retry maximum 0, one unacknowledged
attempt) the machine is in WaitingForAck with a null `tx_msg`; an ACK addressed
to this node then makes `receiveAck` dereference `tx_msg`, so the handler aborts
instead of ignoring the frame. -/
theorem ack_after_exhaustion :
    ∃ s, run noRetryConfig lateAckRun (initialise noRetryConfig 0 0) = some s ∧
      s.proto_state = PROTO_STATE_WFACK ∧ s.tx_msg = none ∧
      receiveAck noRetryConfig (quietAt 50) sampleAck s = none ∧
      step noRetryConfig (quietAt 50) (Event.rxFrame sampleAck) s = none := by
  simp [lateAckRun, exhaustedRun, attempt, run, step, timeout, transmitDone, protocolTimeout,
    expire, txPacket, initialise, noRetryConfig, sampleConfig, samplePacket, quietAt,
    ProtoState.toInt, sendData, setRadioListen, setRadioTransmit, rxStarted, rxFrame,
    receiveAck, sampleAck, KIND_ACK, KIND_DATA,
    startTransmit, setProtocolTimeout, setTimeout, txPacketDone, evalState_spec, contending,
    wrapInt]

/-! ## C13: the window used for a retry -/

/-- C13 fails on the code: after one ack-wait timeout (base window 10) the backoff
window is 20, but whatever the random source yields, the contention the retry
starts is armed with a delay drawn for the window `DATA_CONTEND_TIME` = 10:
`evalState` passes the constant, not `data_contend_time`. -/
theorem contention_ignores_backoff :
    ∀ r : Nat, ∃ s d, run sampleConfig (retryRun r) sampleInit = some s ∧
      s.proto_state = PROTO_STATE_CONTEND ∧
      s.data_contend_time = 20 ∧
      s.proto_timer = some d ∧
      d = intuniform 5 sampleConfig.DATA_CONTEND_TIME r ∧ d ≤ 10 := by
  intro r
  simp [retryRun, run, step, timeout, transmitDone, protocolTimeout,
    expire, txPacket, sampleInit, initialise, sampleConfig, samplePacket, quietAt,
    ProtoState.toInt, sendData, setRadioListen, setRadioTransmit,
    startTransmit, setProtocolTimeout, setTimeout, txPacketDone, evalState_spec, setIdle_spec,
    contending, incBackoff_eq, wrapInt, intuniform]
  omega

/-! ## C14: the idle re-evaluation rule -/

theorem intuniform_range (time : Int) (r : Nat) (h : 5 ≤ time) :
    5 ≤ intuniform 5 time r ∧ intuniform 5 time r ≤ time := by
  unfold intuniform
  have h1 : 0 ≤ (r : Int) % (time - 5 + 1) := Int.emod_nonneg _ (by omega)
  have h2 : (r : Int) % (time - 5 + 1) < time - 5 + 1 := Int.emod_lt_of_pos _ (by omega)
  constructor <;> omega

/-- C14: with `5 ≤ DATA_CONTEND_TIME`, `evalState` is exactly this rule.  If the
protocol state is not Idle or a reception is in progress, it returns the state
unchanged (no command issued).  Otherwise, with a Busy NAV it only puts the
radio to sleep; with a Clear NAV and a held packet it sets the pending next
state to SendData, enters Contending, puts the radio in listen mode and arms
the protocol timer with a delay `d`, `5 ≤ d ≤ DATA_CONTEND_TIME` (the window it
requests); with a Clear NAV and nothing held it only puts the radio in listen
mode. -/
theorem evalState_rule (cfg : Config) (env : Env) (s : State)
    (hbase : 5 ≤ cfg.DATA_CONTEND_TIME) :
    ((s.proto_state ≠ PROTO_STATE_IDLE ∨ env.receiving = true) →
      evalState cfg env s = some s) ∧
    (s.proto_state = PROTO_STATE_IDLE → env.receiving = false →
      s.nav_state = NAV_STATE_BUSY →
      evalState cfg env s
        = some { s with radio := SLEEP, trace := s.trace ++ [Effect.setRadioSleep] }) ∧
    (s.proto_state = PROTO_STATE_IDLE → env.receiving = false →
      s.nav_state = NAV_STATE_CLEAR → s.tx_msg ≠ none →
      ∃ d : Int, 5 ≤ d ∧ d ≤ cfg.DATA_CONTEND_TIME ∧
        evalState cfg env s = some
          { s with
            proto_state := PROTO_STATE_CONTEND
            proto_next_state := PROTO_STATE_SEND_DATA
            radio := LISTEN
            proto_timer := some d
            trace := s.trace ++
              [Effect.setRadioListen, Effect.setTimeout d TIMER_PROTOCOL] }) ∧
    (s.proto_state = PROTO_STATE_IDLE → env.receiving = false →
      s.nav_state = NAV_STATE_CLEAR → s.tx_msg = none →
      evalState cfg env s
        = some { s with radio := LISTEN, trace := s.trace ++ [Effect.setRadioListen] }) := by
  have hbase' : ¬ cfg.DATA_CONTEND_TIME < 5 := not_lt.mpr hbase
  refine ⟨?_, ?_, ?_, ?_⟩
  · intro h
    rw [evalState_spec]
    rcases h with h | h <;> simp [h]
  · intro hp hr hn
    simp [evalState_spec, hp, hr, hn, setRadioSleep]
  · intro hp hr hn ht
    obtain ⟨tx, htx⟩ := Option.ne_none_iff_exists'.mp ht
    refine ⟨intuniform 5 cfg.DATA_CONTEND_TIME env.rand,
      (intuniform_range _ _ hbase).1, (intuniform_range _ _ hbase).2, ?_⟩
    simp [evalState_spec, hp, hr, hn, htx, hbase', contending, setProtocolTimeout, setTimeout,
      setRadioListen]
  · intro hp hr hn ht
    simp [evalState_spec, hp, hr, hn, ht, setRadioListen]

/-- Witness of `evalState_rule`: the sample node while contending, with a Busy NAV,
holding a packet, and idle with nothing to send. -/
theorem evalState_rule_witness :
    evalState sampleConfig (quietAt 0) contendingState = some contendingState ∧
      evalState sampleConfig (quietAt 0) (navSample NAV_STATE_BUSY 115)
        = some { navSample NAV_STATE_BUSY 115 with
            radio := SLEEP
            trace := (navSample NAV_STATE_BUSY 115).trace ++ [Effect.setRadioSleep] } ∧
      (∃ d : Int, 5 ≤ d ∧ d ≤ sampleConfig.DATA_CONTEND_TIME ∧
        evalState sampleConfig (quietAt 0) heldState = some
          { heldState with
            proto_state := PROTO_STATE_CONTEND
            proto_next_state := PROTO_STATE_SEND_DATA
            radio := LISTEN
            proto_timer := some d
            trace := heldState.trace ++
              [Effect.setRadioListen, Effect.setTimeout d TIMER_PROTOCOL] }) ∧
      evalState sampleConfig (quietAt 0) sampleInit
        = some { sampleInit with
            radio := LISTEN
            trace := sampleInit.trace ++ [Effect.setRadioListen] } :=
  ⟨(evalState_rule sampleConfig (quietAt 0) contendingState (by decide)).1
      (Or.inl (by decide)),
   (evalState_rule sampleConfig (quietAt 0) (navSample NAV_STATE_BUSY 115) (by decide)).2.1
      rfl rfl rfl,
   (evalState_rule sampleConfig (quietAt 0) heldState (by decide)).2.2.1
      rfl rfl rfl (by decide),
   (evalState_rule sampleConfig (quietAt 0) sampleInit (by decide)).2.2.2 rfl rfl rfl rfl⟩


/-! ## C15: contention that ends with a busy channel -/

/-- C15 fails on the code: node 1 receives a unicast frame, contends for the
acknowledgement, and the contention timer expires with a channel sample above
0.5 while no packet is held: the machine is left Idle with the pending next
state still SendAck, not None. -/
theorem aborted_contention_keeps_pending :
    ∃ s, run sampleConfig abortedAckRun sampleInit = some s ∧
      s.proto_state = PROTO_STATE_IDLE ∧ s.tx_msg = none ∧
      s.proto_next_state = PROTO_STATE_SEND_ACK := by
  simp [abortedAckRun, run, step, timeout, protocolTimeout, rxStarted, rxFrame, receiveData,
    expire, sampleInit, initialise, sampleConfig, unicastFrame, quietAt, noisyAt,
    ProtoState.toInt, setRadioListen, rxPacket, KIND_ACK, KIND_DATA,
    setProtocolTimeout, setTimeout, evalState_spec, setIdle_spec, startContending_spec,
    contending]

/-! ## C16: a foreign frame during the wait for the acknowledgement -/

theorem evalState_keeps (cfg : Config) (env : Env) (s s' : State)
    (h : evalState cfg env s = some s') :
    s'.data_contend_time = s.data_contend_time ∧ s'.packet_retries = s.packet_retries ∧
      s'.tx_msg = s.tx_msg := by
  rcases evalState_cases cfg env s s' h with h | h | h | h <;> subst h <;>
    simp [setRadioListen, setRadioSleep, contending, setProtocolTimeout, setTimeout]

/-- C16: in WaitingForAck, for a DATA frame not addressed to this node (a frame that
is not an ACK is a DATA frame; any other kind aborts in the dispatch), with a
window whose doubling does not overflow and with `0 < NAV_ACK < 2^16` and
`5 ≤ DATA_CONTEND_TIME`: `rxFrame` first applies `incBackoff` (the window
becomes `min (2 * window) max`), cancels the protocol timer and sets the
protocol state to Idle, giving `s1`; it then hands the frame to `receiveData`
in `s1` and re-evaluates, and returns.  The window stays at that value, and the
retry counter and `tx_msg` are as before the frame. -/
theorem foreign_frame_while_waiting (cfg : Config) (env : Env) (msg : Packet) (s : State)
    (hw : s.proto_state = PROTO_STATE_WFACK) (hk : msg.header_kind = KIND_DATA)
    (hme : msg.local_to ≠ cfg.nodeId)
    (hlo : -1073741824 ≤ s.data_contend_time) (hhi : s.data_contend_time < 1073741824)
    (hnav0 : 0 < cfg.NAV_ACK) (hnav1 : cfg.NAV_ACK < USHORT)
    (hbase : 5 ≤ cfg.DATA_CONTEND_TIME) :
    ∃ s1 s2 s',
      s1 = { cancelTimeout TIMER_PROTOCOL (incBackoff cfg s) with
              proto_state := PROTO_STATE_IDLE } ∧
      s1.data_contend_time = min (s.data_contend_time * 2) cfg.MAX_DATA_CONTEND_TIME ∧
      s1.proto_timer = none ∧
      receiveData cfg env msg s1 = some s2 ∧
      evalState cfg env s2 = some s' ∧
      rxFrame cfg env msg s = some s' ∧
      s'.data_contend_time = min (s.data_contend_time * 2) cfg.MAX_DATA_CONTEND_TIME ∧
      s'.packet_retries = s.packet_retries ∧
      s'.tx_msg = s.tx_msg := by
  have hww : wrapInt (s.data_contend_time * 2) = s.data_contend_time * 2 :=
    wrapInt_id _ (by omega) (by omega)
  have hwin : (incBackoff cfg s).data_contend_time
      = min (s.data_contend_time * 2) cfg.MAX_DATA_CONTEND_TIME := by
    rw [incBackoff_eq]
    simp only [hww, min_def]
    split_ifs <;> omega
  have ht0 : cfg.NAV_ACK % USHORT = cfg.NAV_ACK := Nat.mod_eq_of_lt hnav1
  have hne : cfg.NAV_ACK ≠ 0 := by omega
  obtain ⟨s2, hs2, hk2⟩ : ∃ s2,
      receiveData cfg env msg
        { cancelTimeout TIMER_PROTOCOL (incBackoff cfg s) with
          proto_state := PROTO_STATE_IDLE } = some s2 ∧
      s2.data_contend_time = (incBackoff cfg s).data_contend_time ∧
      s2.packet_retries = s.packet_retries ∧ s2.tx_msg = s.tx_msg := by
    by_cases hb : msg.local_to = cfg.BROADCAST
    · simp [receiveData, hme, hb, hb ▸ hme, rxPacket, cancelTimeout, incBackoff_eq]
    · by_cases hu : (s.nav_state = NAV_STATE_CLEAR ∨
          cfg.NAV_ACK > (s.nav_end_time + USHORT - env.now % USHORT) % USHORT)
      · simp [receiveData, hme, hb, updateNav, ht0, hne, hu, setNavTimeout, setTimeout,
          cancelTimeout, incBackoff_eq]
      · simp [receiveData, hme, hb, updateNav, ht0, hne, hu, setNavTimeout, setTimeout,
          cancelTimeout, incBackoff_eq]
  obtain ⟨s', hs'⟩ := evalState_total cfg env s2 hbase
  obtain ⟨e1, e2, e3⟩ := evalState_keeps cfg env s2 s' hs'
  refine ⟨_, s2, s', rfl, ?_, ?_, hs2, hs', ?_, ?_, ?_, ?_⟩
  · simpa [cancelTimeout] using hwin
  · simp [cancelTimeout]
  · simp [rxFrame, hw, hk, KIND_ACK, KIND_DATA, hs2, hs']
  · rw [e1, hk2.1, hwin]
  · rw [e2, hk2.2.1]
  · rw [e3, hk2.2.2]

/-- Witness of `foreign_frame_while_waiting`: node 1 waits for the acknowledgement
of node 5 with window 10 and receives a broadcast frame. -/
theorem foreign_frame_while_waiting_witness :
    ∃ s1 s2 s',
      s1 = { cancelTimeout TIMER_PROTOCOL (incBackoff sampleConfig waitingState) with
              proto_state := PROTO_STATE_IDLE } ∧
      s1.data_contend_time
        = min (waitingState.data_contend_time * 2) sampleConfig.MAX_DATA_CONTEND_TIME ∧
      s1.proto_timer = none ∧
      receiveData sampleConfig (quietAt 30) broadcastFrame s1 = some s2 ∧
      evalState sampleConfig (quietAt 30) s2 = some s' ∧
      rxFrame sampleConfig (quietAt 30) broadcastFrame waitingState = some s' ∧
      s'.data_contend_time
        = min (waitingState.data_contend_time * 2) sampleConfig.MAX_DATA_CONTEND_TIME ∧
      s'.packet_retries = waitingState.packet_retries ∧
      s'.tx_msg = waitingState.tx_msg :=
  foreign_frame_while_waiting sampleConfig (quietAt 30) broadcastFrame waitingState rfl rfl
    (by decide) (by decide) (by decide) (by decide) (by decide) (by decide)

/-! ## C17: the number of DATA transmissions -/

/-- C17 fails on the code: with a retry maximum of 0, a broadcast frame of another
node that arrives during the wait for the acknowledgement sends the machine
back to contention without touching the retry counter, and the packet is
transmitted a second time before it is completed. -/
theorem retransmission_without_retry :
    ∃ s, run noRetryConfig disturbedRun (initialise noRetryConfig 0 0) = some s ∧
      (dataTransmissions s.trace).length = 2 ∧ completions s.trace = [] ∧
      s.tx_msg = some samplePacket ∧ s.packet_retries = 0 ∧
      noRetryConfig.maxPacketRetries + 1 = 1 := by
  simp [disturbedRun, run, step, timeout, transmitDone, protocolTimeout, rxStarted, rxFrame,
    receiveData, rxPacket, cancelTimeout, incBackoff_eq, wrapInt, broadcastFrame,
    expire, txPacket, initialise, noRetryConfig, sampleConfig, samplePacket, quietAt,
    ProtoState.toInt, sendData, setRadioListen, setRadioTransmit, KIND_ACK, KIND_DATA,
    startTransmit, setProtocolTimeout, setTimeout, txPacketDone, evalState_spec, contending,
    dataTransmissions, completions]

/-! ## C18: the protocol timer outside Contending and WaitingForAck -/

/-- C18 fails on the code: a unicast frame makes node 1 contend for the
acknowledgement (protocol timer armed for 6); a broadcast frame delivered next
sets the machine to Idle in `receiveData` without cancelling the timer; the
state is reachable, Idle, with the timer armed, and the expiry of that timer
aborts in `protocolTimeout`. -/
theorem stale_protocol_timer :
    ∃ s, run sampleConfig overlapRun sampleInit = some s ∧
      Reachable sampleConfig s ∧
      s.proto_state = PROTO_STATE_IDLE ∧ s.proto_timer = some 6 ∧
      step sampleConfig (quietAt 30) (Event.timeout TIMER_PROTOCOL) s = none := by
  have h : ∃ s, run sampleConfig overlapRun sampleInit = some s ∧
      s.proto_state = PROTO_STATE_IDLE ∧ s.proto_timer = some 6 ∧
      step sampleConfig (quietAt 30) (Event.timeout TIMER_PROTOCOL) s = none := by
    simp [overlapRun, run, step, timeout, protocolTimeout, rxStarted, rxFrame, receiveData,
      expire, sampleInit, initialise, sampleConfig, unicastFrame, broadcastFrame, quietAt,
      ProtoState.toInt, setRadioListen, rxPacket, KIND_ACK, KIND_DATA,
      setProtocolTimeout, setTimeout, evalState_spec, startContending_spec,
      contending, intuniform]
  obtain ⟨s, hrun, hp, ht, hs⟩ := h
  exact ⟨s, hrun, reachable_run sampleConfig overlapRun _ s (Reachable.init 0 0) hrun, hp, ht, hs⟩

/-! ## C19: Contending and the NAV -/

theorem evalState_cases_nav (cfg : Config) (env : Env) (s s' : State)
    (h : evalState cfg env s = some s') :
    s' = s ∨ s' = setRadioListen s ∨ s' = setRadioSleep s ∨
      (s.proto_state = PROTO_STATE_IDLE ∧ s.nav_state = NAV_STATE_CLEAR ∧
        s.tx_msg ≠ none ∧
        s' = contending env cfg.DATA_CONTEND_TIME
          { s with proto_next_state := PROTO_STATE_SEND_DATA }) := by
  rw [evalState_spec] at h
  split at h
  · rename_i hi
    split at h
    · rename_i hc
      split at h
      · rename_i tx htx
        split at h
        · cases h
        · cases h
          right; right; right
          exact ⟨hi.1, hc, by simp [htx], rfl⟩
      · cases h; simp
    · cases h; simp
  · cases h; simp

theorem contendClear_evalState (cfg : Config) (env : Env) (s s' : State)
    (h : evalState cfg env s = some s') (hi : ContendClear s) : ContendClear s' := by
  rcases evalState_cases_nav cfg env s s' h with h | h | h | ⟨_, hc, _, h⟩ <;> subst h
  · exact hi
  · exact hi
  · exact hi
  · simp [ContendClear, contending, setProtocolTimeout, setTimeout, setRadioListen, hc]

theorem contendClear_setIdle (cfg : Config) (env : Env) (s s' : State)
    (h : setIdle cfg env s = some s') (hi : s.proto_next_state ≠ PROTO_STATE_CONTEND) :
    ContendClear s' := by
  rw [setIdle_spec] at h
  exact contendClear_evalState cfg env _ s' h ⟨hi, by simp⟩

theorem contendClear_startContending (cfg : Config) (env : Env) (time : Int) (s s' : State)
    (h : startContending cfg env time s = some s')
    (hx : s.proto_next_state ≠ PROTO_STATE_CONTEND) : ContendClear s' := by
  obtain ⟨_, _, h | h⟩ := startContending_cases cfg env time s s' h
  · rcases h with ⟨_, h | h⟩ <;> subst h <;> simp [ContendClear, setRadioSleep]
  · obtain ⟨hc, h⟩ := h
    subst h
    simp [ContendClear, contending, setProtocolTimeout, setTimeout, setRadioListen, hc, hx]

theorem contendClear_txPacket (cfg : Config) (env : Env) (msg : Packet) (s s' : State)
    (h : txPacket cfg env msg s = some s') (hi : ContendClear s) : ContendClear s' := by
  unfold txPacket at h
  split at h
  · cases h
  split at h
  · cases h; exact hi
  · cases he : evalState cfg env { s with tx_msg := some msg } with
    | none => simp [he] at h
    | some s1 =>
      rw [he] at h
      cases h
      exact contendClear_evalState cfg env _ s1 he hi

theorem contendClear_receiveAck (cfg : Config) (env : Env) (msg : Packet) (s s' : State)
    (h : receiveAck cfg env msg s = some s') (hi : ContendClear s) : ContendClear s' := by
  unfold receiveAck at h
  split at h
  · cases h
  split at h
  · split at h
    · cases h; exact hi
    split at h
    · cases h
    split at h
    · cases h; exact hi
    · exact contendClear_setIdle cfg env _ s' h hi.1
  · cases h; exact hi

theorem contendClear_receiveData (cfg : Config) (env : Env) (msg : Packet) (s s' : State)
    (h : receiveData cfg env msg s = some s') : ContendClear s' := by
  unfold receiveData at h
  split at h
  · exact contendClear_startContending cfg env _ _ s' h (by simp)
  split at h
  · cases h; simp [ContendClear, rxPacket]
  · unfold updateNav at h
    simp only at h
    split at h
    · cases h
    split at h <;> cases h <;> simp [ContendClear, setNavTimeout, setTimeout]

theorem contendClear_rxFrame (cfg : Config) (env : Env) (msg : Packet) (s s' : State)
    (h : rxFrame cfg env msg s = some s') (hi : ContendClear s) : ContendClear s' := by
  unfold rxFrame at h
  simp only at h
  have h0 : ContendClear
      (if s.proto_state = PROTO_STATE_WFACK ∧
          (msg.header_kind ≠ KIND_ACK ∨ msg.local_to ≠ cfg.nodeId) then
        { cancelTimeout TIMER_PROTOCOL (incBackoff cfg s) with proto_state := PROTO_STATE_IDLE }
      else s) := by
    split
    · exact ⟨by simpa [cancelTimeout, incBackoff_eq] using hi.1, by simp⟩
    · exact hi
  generalize (if s.proto_state = PROTO_STATE_WFACK ∧
          (msg.header_kind ≠ KIND_ACK ∨ msg.local_to ≠ cfg.nodeId) then
        { cancelTimeout TIMER_PROTOCOL (incBackoff cfg s) with proto_state := PROTO_STATE_IDLE }
      else s) = s0 at h h0
  split at h
  · cases hr : receiveAck cfg env msg s0 with
    | none => simp [hr] at h
    | some s1 =>
      rw [hr] at h
      exact contendClear_evalState cfg env s1 s' h
        (contendClear_receiveAck cfg env msg s0 s1 hr h0)
  split at h
  · cases hr : receiveData cfg env msg s0 with
    | none => simp [hr] at h
    | some s1 =>
      rw [hr] at h
      exact contendClear_evalState cfg env s1 s' h
        (contendClear_receiveData cfg env msg s0 s1 hr)
  · simp at h

theorem contendClear_transmitDone (cfg : Config) (env : Env) (s s' : State)
    (h : transmitDone cfg env s = some s') (hi : ContendClear s) : ContendClear s' := by
  unfold transmitDone at h
  split at h
  · exact contendClear_setIdle cfg env s s' h hi.1
  · simp only at h
    split at h
    · cases h
    · cases h
      have := hi.1
      constructor
      · split <;> split <;>
          simpa [setRadioListen, txPacketDone, setProtocolTimeout, setTimeout] using this
      · intro hc
        exfalso
        apply this
        revert hc
        split <;> split <;>
          simp [setRadioListen, txPacketDone, setProtocolTimeout, setTimeout]
  · cases h

theorem contendClear_protocolTimeout (cfg : Config) (env : Env) (s s' : State)
    (h : protocolTimeout cfg env s = some s') (hi : ContendClear s) : ContendClear s' := by
  unfold protocolTimeout at h
  split at h
  · split at h
    · cases h
    split at h
    · cases h
    split at h
    · cases h
    simp only at h
    split at h
    · exact contendClear_setIdle cfg env _ s' h (by simpa [setRadioListen] using hi.1)
    · split at h
      · unfold sendAck at h
        simp only at h
        split at h
        · cases h
        · cases h; simp [ContendClear, startTransmit, setRadioTransmit, setRadioListen]
      · unfold sendData at h
        simp only at h
        split at h
        · cases h
        split at h
        · cases h
        · cases h
          split <;> simp [ContendClear, startTransmit, setRadioTransmit, setRadioListen]
      · cases h
  · simp only at h
    split at h
    · split at h
      · cases h
      · cases h
        exact ⟨by simpa [txPacketDone] using hi.1, by simpa [txPacketDone] using hi.2⟩
    · exact contendClear_setIdle cfg env _ s' h (by simpa [incBackoff_eq] using hi.1)
  · cases h

theorem contendClear_step (cfg : Config) (env : Env) (ev : Event) (s s' : State)
    (h : step cfg env ev s = some s') (hi : ContendClear s) : ContendClear s' := by
  cases ev with
  | txPacket msg => exact contendClear_txPacket cfg env msg s s' h hi
  | rxFrame msg => exact contendClear_rxFrame cfg env msg s s' h hi
  | rxStarted =>
    simp only [step, Option.some.injEq] at h
    subst h
    unfold rxStarted
    split
    · simp [ContendClear, cancelTimeout]
    · exact hi
  | rxFailed => exact contendClear_evalState cfg env s s' h hi
  | transmitDone => exact contendClear_transmitDone cfg env s s' h hi
  | timeout which =>
    cases which with
    | TIMER_PROTOCOL => exact contendClear_protocolTimeout cfg env _ s' h hi
    | TIMER_NAV =>
      simp only [step, timeout, navTimeout, expire] at h
      exact contendClear_evalState cfg env _ s' h ⟨hi.1, fun _ => rfl⟩
    | UNKNOWN => simp [step, timeout] at h

theorem contendClear_reachable (cfg : Config) (s : State) (hs : Reachable cfg s) :
    ContendClear s := by
  induction hs with
  | init pr ack => simp [ContendClear, initialise, setRadioListen]
  | step env ev s s' _ hstep ih => exact contendClear_step cfg env ev s s' hstep ih

/-- C19: in every state reachable from the initial state by events none of which
aborted, if the protocol state is Contending then the NAV is Clear; the same
holds of the state in which the expiry of the protocol timer runs
`protocolTimeout`, so the assertion `nav_state == NAV_STATE_CLEAR` of its
Contending branch holds whenever it is reached. -/
theorem contending_nav_clear (cfg : Config) (s : State) (hs : Reachable cfg s)
    (hc : s.proto_state = PROTO_STATE_CONTEND) :
    s.nav_state = NAV_STATE_CLEAR ∧
      (expire TIMER_PROTOCOL s).nav_state = NAV_STATE_CLEAR := by
  have h := (contendClear_reachable cfg s hs).2 hc
  exact ⟨h, h⟩

/-- Witness of `contending_nav_clear`: the sample node after it accepted a packet. -/
theorem contending_nav_clear_witness :
    Reachable sampleConfig acceptedState ∧
      acceptedState.proto_state = PROTO_STATE_CONTEND ∧
      acceptedState.nav_state = NAV_STATE_CLEAR ∧
      (expire TIMER_PROTOCOL acceptedState).nav_state = NAV_STATE_CLEAR :=
  ⟨acceptedState_reachable, rfl,
    contending_nav_clear sampleConfig acceptedState acceptedState_reachable rfl⟩

/-! ## C20: the protocol state during and after a DATA transmission -/

theorem sendOk_evalState (cfg : Config) (env : Env) (s s' : State)
    (h : evalState cfg env s = some s') (hi : SendOk cfg s) : SendOk cfg s' := by
  rcases evalState_cases cfg env s s' h with h | h | h | h <;> subst h
  · exact hi
  · exact hi
  · exact hi
  · simp [SendOk, contending, setProtocolTimeout, setTimeout, setRadioListen]

theorem sendOk_setIdle (cfg : Config) (env : Env) (s s' : State)
    (h : setIdle cfg env s = some s') : SendOk cfg s' := by
  rw [setIdle_spec] at h
  exact sendOk_evalState cfg env _ s' h (by simp [SendOk])

theorem sendOk_startContending (cfg : Config) (env : Env) (time : Int) (s s' : State)
    (h : startContending cfg env time s = some s') : SendOk cfg s' := by
  obtain ⟨_, _, h | h⟩ := startContending_cases cfg env time s s' h
  · rcases h with ⟨_, h | h⟩ <;> subst h <;> simp [SendOk, setRadioSleep]
  · obtain ⟨_, h⟩ := h
    subst h
    simp [SendOk, contending, setProtocolTimeout, setTimeout, setRadioListen]

theorem sendOk_txPacket (cfg : Config) (env : Env) (msg : Packet) (s s' : State)
    (h : txPacket cfg env msg s = some s') (hi : SendOk cfg s) : SendOk cfg s' := by
  unfold txPacket at h
  split at h
  · cases h
  split at h
  · cases h; exact hi
  · rename_i hnone
    cases he : evalState cfg env { s with tx_msg := some msg } with
    | none => simp [he] at h
    | some s1 =>
      rw [he] at h
      cases h
      have h1 : SendOk cfg { s with tx_msg := some msg } := by
        refine ⟨hi.1, fun hsd => ?_⟩
        obtain ⟨tx, htx, _⟩ := hi.2 hsd
        rw [hnone] at htx
        cases htx
      exact sendOk_evalState cfg env _ s1 he h1

theorem sendOk_receiveAck (cfg : Config) (env : Env) (msg : Packet) (s s' : State)
    (h : receiveAck cfg env msg s = some s') (hi : SendOk cfg s) : SendOk cfg s' := by
  unfold receiveAck at h
  split at h
  · cases h
  split at h
  · split at h
    · cases h; exact hi
    split at h
    · cases h
    split at h
    · cases h; exact hi
    · exact sendOk_setIdle cfg env _ s' h
  · cases h; exact hi

theorem sendOk_receiveData (cfg : Config) (env : Env) (msg : Packet) (s s' : State)
    (h : receiveData cfg env msg s = some s') : SendOk cfg s' := by
  unfold receiveData at h
  split at h
  · exact sendOk_startContending cfg env _ _ s' h
  split at h
  · cases h; simp [SendOk, rxPacket]
  · unfold updateNav at h
    simp only at h
    split at h
    · cases h
    split at h <;> cases h <;> simp [SendOk, setNavTimeout, setTimeout]

theorem sendOk_rxFrame (cfg : Config) (env : Env) (msg : Packet) (s s' : State)
    (h : rxFrame cfg env msg s = some s') (hi : SendOk cfg s) : SendOk cfg s' := by
  unfold rxFrame at h
  simp only at h
  have h0 : SendOk cfg
      (if s.proto_state = PROTO_STATE_WFACK ∧
          (msg.header_kind ≠ KIND_ACK ∨ msg.local_to ≠ cfg.nodeId) then
        { cancelTimeout TIMER_PROTOCOL (incBackoff cfg s) with proto_state := PROTO_STATE_IDLE }
      else s) := by
    split
    · simp [SendOk]
    · exact hi
  generalize (if s.proto_state = PROTO_STATE_WFACK ∧
          (msg.header_kind ≠ KIND_ACK ∨ msg.local_to ≠ cfg.nodeId) then
        { cancelTimeout TIMER_PROTOCOL (incBackoff cfg s) with proto_state := PROTO_STATE_IDLE }
      else s) = s0 at h h0
  split at h
  · cases hr : receiveAck cfg env msg s0 with
    | none => simp [hr] at h
    | some s1 =>
      rw [hr] at h
      exact sendOk_evalState cfg env s1 s' h (sendOk_receiveAck cfg env msg s0 s1 hr h0)
  split at h
  · cases hr : receiveData cfg env msg s0 with
    | none => simp [hr] at h
    | some s1 =>
      rw [hr] at h
      exact sendOk_evalState cfg env s1 s' h (sendOk_receiveData cfg env msg s0 s1 hr)
  · simp at h

theorem transmitDone_sending (cfg : Config) (env : Env) (s : State) (tx : Packet)
    (hp : s.proto_state = PROTO_STATE_SEND_DATA) (ht : s.tx_msg = some tx)
    (hx : s.proto_next_state =
      (if tx.local_to = cfg.BROADCAST then PROTO_STATE_IDLE else PROTO_STATE_WFACK)) :
    ∃ s', transmitDone cfg env s = some s' ∧
      s'.proto_state = s.proto_next_state ∧
      (s'.proto_state = PROTO_STATE_IDLE ∨ s'.proto_state = PROTO_STATE_WFACK) := by
  by_cases hb : tx.local_to = cfg.BROADCAST
  · simp [hb] at hx
    simp [transmitDone, hp, ht, hx, hb, setRadioListen, txPacketDone]
  · simp [hb] at hx
    simp [transmitDone, hp, ht, hx, hb, setRadioListen, setProtocolTimeout, setTimeout]

theorem sendOk_transmitDone (cfg : Config) (env : Env) (s s' : State)
    (h : transmitDone cfg env s = some s') (hi : SendOk cfg s) : SendOk cfg s' := by
  by_cases hp : s.proto_state = PROTO_STATE_SEND_DATA
  · obtain ⟨tx, ht, hx⟩ := hi.2 hp
    obtain ⟨s1, h1, _, h3⟩ := transmitDone_sending cfg env s tx hp ht hx
    rw [h1] at h
    cases h
    rcases h3 with h3 | h3 <;> simp [SendOk, h3]
  · unfold transmitDone at h
    split at h
    · exact sendOk_setIdle cfg env s s' h
    · rename_i hsd; exact absurd hsd hp
    · cases h

theorem sendOk_protocolTimeout (cfg : Config) (env : Env) (s s' : State)
    (h : protocolTimeout cfg env s = some s') : SendOk cfg s' := by
  unfold protocolTimeout at h
  split at h
  · split at h
    · cases h
    split at h
    · cases h
    split at h
    · cases h
    simp only at h
    split at h
    · exact sendOk_setIdle cfg env _ s' h
    · split at h
      · unfold sendAck at h
        simp only at h
        split at h
        · cases h
        · cases h; simp [SendOk, startTransmit, setRadioTransmit, setRadioListen]
      · unfold sendData at h
        simp only at h
        split at h
        · cases h
        rename_i tx htx
        split at h
        · cases h
        · cases h
          simp only [setRadioListen] at htx
          split <;> simp_all [SendOk, startTransmit, setRadioTransmit, setRadioListen]
      · cases h
  · rename_i hw
    simp only at h
    split at h
    · split at h
      · cases h
      · cases h
        simp [SendOk, txPacketDone, hw]
    · exact sendOk_setIdle cfg env _ s' h
  · cases h

theorem sendOk_step (cfg : Config) (env : Env) (ev : Event) (s s' : State)
    (h : step cfg env ev s = some s') (hi : SendOk cfg s) : SendOk cfg s' := by
  cases ev with
  | txPacket msg => exact sendOk_txPacket cfg env msg s s' h hi
  | rxFrame msg => exact sendOk_rxFrame cfg env msg s s' h hi
  | rxStarted =>
    simp only [step, Option.some.injEq] at h
    subst h
    unfold rxStarted
    split
    · simp [SendOk, cancelTimeout]
    · exact hi
  | rxFailed => exact sendOk_evalState cfg env s s' h hi
  | transmitDone => exact sendOk_transmitDone cfg env s s' h hi
  | timeout which =>
    cases which with
    | TIMER_PROTOCOL => exact sendOk_protocolTimeout cfg env _ s' h
    | TIMER_NAV =>
      simp only [step, timeout, navTimeout, expire] at h
      refine sendOk_evalState cfg env _ s' h ?_
      simpa [SendOk] using hi
    | UNKNOWN => simp [step, timeout] at h

theorem sendOk_reachable (cfg : Config) (s : State) (hs : Reachable cfg s) :
    SendOk cfg s := by
  induction hs with
  | init pr ack => simp [SendOk, initialise, setRadioListen]
  | step env ev s s' _ hstep ih => exact sendOk_step cfg env ev s s' hstep ih

/-- C20: in every state reachable from the initial state by events none of which
aborted, the protocol state is not `PROTO_STATE_NONE`; and if it is SendingData
then a packet is held, the pending next state is Idle when the packet's
destination is BROADCAST and WaitingForAck otherwise, and `transmitDone`
returns (its `assert(tx_msg)` holds) with the protocol state set to that
pending next state, hence Idle or WaitingForAck. -/
theorem sending_data_consistent (cfg : Config) (s : State) (hs : Reachable cfg s) :
    s.proto_state ≠ PROTO_STATE_NONE ∧
      (s.proto_state = PROTO_STATE_SEND_DATA →
        ∃ tx, s.tx_msg = some tx ∧
          s.proto_next_state =
            (if tx.local_to = cfg.BROADCAST then PROTO_STATE_IDLE else PROTO_STATE_WFACK) ∧
          ∀ env, ∃ s', transmitDone cfg env s = some s' ∧
            s'.proto_state = s.proto_next_state ∧
            (s'.proto_state = PROTO_STATE_IDLE ∨ s'.proto_state = PROTO_STATE_WFACK)) := by
  have hi := sendOk_reachable cfg s hs
  refine ⟨hi.1, fun hp => ?_⟩
  obtain ⟨tx, ht, hx⟩ := hi.2 hp
  exact ⟨tx, ht, hx, fun env => transmitDone_sending cfg env s tx hp ht hx⟩

theorem sendingState_reachable : Reachable sampleConfig sendingState := by
  refine Reachable.step (quietAt 10) (Event.timeout TIMER_PROTOCOL) acceptedState _
    acceptedState_reachable ?_
  simp [step, timeout, protocolTimeout, expire, acceptedState, contendingState, heldState,
    sampleInit, initialise, sampleConfig, samplePacket, quietAt, ProtoState.toInt, sendData,
    setRadioListen, setRadioTransmit, startTransmit, setProtocolTimeout, setTimeout,
    contending, sendingState, dataFrame]

/-- Witness of `sending_data_consistent`: the sample node while it transmits
`samplePacket`. -/
theorem sending_data_consistent_witness :
    Reachable sampleConfig sendingState ∧
      sendingState.proto_state = PROTO_STATE_SEND_DATA ∧
      sendingState.proto_state ≠ PROTO_STATE_NONE ∧
      ∃ tx, sendingState.tx_msg = some tx ∧
        sendingState.proto_next_state =
          (if tx.local_to = sampleConfig.BROADCAST then PROTO_STATE_IDLE
            else PROTO_STATE_WFACK) ∧
        ∀ env, ∃ s', transmitDone sampleConfig env sendingState = some s' ∧
          s'.proto_state = sendingState.proto_next_state ∧
          (s'.proto_state = PROTO_STATE_IDLE ∨ s'.proto_state = PROTO_STATE_WFACK) :=
  ⟨sendingState_reachable, rfl,
    (sending_data_consistent sampleConfig sendingState sendingState_reachable).1,
    (sending_data_consistent sampleConfig sendingState sendingState_reachable).2 rfl⟩

end CsmaAck
